import Mathlib

/-!
Verification development for the retail-analytics copilot pipeline
(`agent/dspy_signatures.py`, `agent/graph_hybrid.py`, `run_agent_hybrid.py`).

The Python code is shallowly embedded: pure functions become Lean
functions, the bounded repair loop becomes a structurally recursive
function of the iteration budget, the external query service becomes an
explicit oracle of type `String → ExecResult`, and Python values (ints,
floats, strings, None) become the inductive `PyVal`.  Python floats are
modelled as rationals: every arithmetic step of the confidence
heuristic and the value extractors lands on exact decimal fractions
after the code's own 2-decimal rounding, so the rational model agrees
with the binary-float computation on everything stated here.  String
primitives (lowercasing, trimming, substring search, splitting) are
implemented directly on character lists so that concrete runs reduce
inside the kernel; they model the corresponding CPython `str` methods
on the ASCII inputs the pipeline handles.
-/

namespace RetailCopilot

/-! ## String primitives (character-list implementations) -/

/-- Python `s.lower()` (ASCII). -/
def lowerStr (s : String) : String :=
  String.mk (s.data.map Char.toLower)

/-- Python `s.strip()`: whitespace removed from both ends. -/
def trimStr (s : String) : String :=
  String.mk (((s.data.dropWhile Char.isWhitespace).reverse.dropWhile
    Char.isWhitespace).reverse)

/-- Python `needle in haystack` on character lists: some suffix starts
with the needle (the empty needle always occurs). -/
def lcontains : List Char → List Char → Bool
  | cs, sub =>
    if sub.isPrefixOf cs then true
    else match cs with
      | [] => false
      | _ :: tail => lcontains tail sub

/-- Python `needle in haystack` on strings. -/
def containsSubstr (haystack needle : String) : Bool :=
  lcontains haystack.data needle.data

/-- Python `s.startswith(p)`. -/
def startsWithStr (s p : String) : Bool :=
  p.data.isPrefixOf s.data

/-- Python `s.endswith(p)`. -/
def endsWithStr (s p : String) : Bool :=
  p.data.reverse.isPrefixOf s.data.reverse

/-- Python `s[:n]` (character slicing). -/
def takeStr (s : String) (n : ℕ) : String :=
  String.mk (s.data.take n)

/-- Python `s[n:]`. -/
def dropStr (s : String) (n : ℕ) : String :=
  String.mk (s.data.drop n)

/-- Python `s[:-n]`. -/
def dropRightStr (s : String) (n : ℕ) : String :=
  String.mk (s.data.take (s.data.length - n))

/-- Python `str.replace` on character lists: non-overlapping
left-to-right replacement.  The fuel argument (instantiated with the
input length, enough for the ≥1-character progress per step) keeps the
recursion structural. -/
def replaceChars (needle repl : List Char) : ℕ → List Char → List Char
  | 0, cs => cs
  | _ + 1, [] => []
  | fuel + 1, cs@(c :: tail) =>
    if needle.isPrefixOf cs && !needle.isEmpty then
      repl ++ replaceChars needle repl fuel (cs.drop needle.length)
    else
      c :: replaceChars needle repl fuel tail

/-- Python `s.replace(needle, repl)`. -/
def replaceStr (s needle repl : String) : String :=
  String.mk (replaceChars needle.data repl.data s.data.length s.data)

/-- Split a character list on a separator character (Python
`s.split(",")`-style, every occurrence). -/
def splitOnChar (sep : Char) : List Char → List (List Char)
  | [] => [[]]
  | c :: tail =>
    let rest := splitOnChar sep tail
    if c == sep then [] :: rest
    else match rest with
      | r :: rs => (c :: r) :: rs
      | [] => [[c]]

/-- Python `s.split(sep, 1)`: the part before the first occurrence of
the separator character and the part after it, when it occurs. -/
def splitFirst (sep : Char) : List Char → Option (List Char × List Char)
  | [] => Option.none
  | c :: tail =>
    if c == sep then some ([], tail)
    else match splitFirst sep tail with
      | some p => some (c :: p.1, p.2)
      | Option.none => Option.none

/-- Python `sep.join(strings)`. -/
def joinSep (sep : String) : List String → String
  | [] => ""
  | [x] => x
  | x :: xs => x ++ sep ++ joinSep sep xs

/-- Digits to a natural number, used for the modelled regex captures. -/
def digitsToNat (cs : List Char) : ℕ :=
  cs.foldl (fun a c => a * 10 + (c.toNat - 48)) 0

/-- Modelled from Python's `float(s)` on strings: optional surrounding
whitespace, an optional sign, then a plain decimal literal.
(Exponents, `inf`/`nan` and exotic spellings accepted by CPython are
not modelled; no claim depends on them.) -/
def parseFloatQ (s : String) : Option ℚ :=
  let cs := (trimStr s).data
  let signAndRest : ℚ × List Char :=
    match cs with
    | '-' :: rest => (-1, rest)
    | '+' :: rest => (1, rest)
    | _ => (1, cs)
  let sign := signAndRest.1
  let body := signAndRest.2
  let intPart := body.takeWhile (fun c => c.isDigit)
  let rest := body.dropWhile (fun c => c.isDigit)
  match rest with
  | [] =>
    if intPart.isEmpty then none
    else some (sign * (digitsToNat intPart : ℚ))
  | '.' :: frac =>
    let fracPart := frac.takeWhile (fun c => c.isDigit)
    let rest2 := frac.dropWhile (fun c => c.isDigit)
    if rest2.isEmpty && !(intPart.isEmpty && fracPart.isEmpty) then
      some (sign * ((digitsToNat intPart : ℚ) +
        (digitsToNat fracPart : ℚ) / (10 : ℚ) ^ fracPart.length))
    else none
  | _ => none

/-! ## Python values, rows and rounding -/

/-- A Python value as it appears in a result row: `int`, `float`
(modelled as ℚ), `str`, or `None`. -/
inductive PyVal where
  | int (n : ℤ)
  | float (q : ℚ)
  | str (s : String)
  | none
deriving DecidableEq, Repr

/-- A result row: a finite mapping column-name → value, as an
association list (Python `dict`). -/
abbrev Row := List (String × PyVal)

/-- Python `row.get(col)`: `None` when the key is absent. -/
def rowGet (r : Row) (c : String) : PyVal :=
  match r.find? (fun p => p.1 == c) with
  | some p => p.2
  | Option.none => PyVal.none

/-- Python `float(v)` on a `PyVal`, as an `Option` (raising = `none`).
`float(None)` raises `TypeError`; numeric strings go through
`parseFloatQ`. -/
def pyFloat? : PyVal → Option ℚ
  | .int n => some (n : ℚ)
  | .float q => some q
  | .str s => parseFloatQ s
  | .none => Option.none

/-- `HybridAgent._is_number` (graph_hybrid.py lines 555-564): ints and
floats are numbers, `None` is not, a string is when `float(s)`
succeeds. -/
def isNumber : PyVal → Bool
  | .int _ => true
  | .float _ => true
  | .none => false
  | .str s => (parseFloatQ s).isSome

/-- Python's `round` to an integer: round half to even. -/
def roundHalfEven (q : ℚ) : ℤ :=
  let f := Int.floor q
  let r := q - (f : ℚ)
  if r < 1/2 then f
  else if 1/2 < r then f + 1
  else if 2 ∣ f then f else f + 1

/-- Python's `round(x, 2)` on the rational model. -/
def pyRound2 (q : ℚ) : ℚ :=
  (roundHalfEven (q * 100) : ℚ) / 100

/-- Python `s.strip(chars)` for a fixed character set: drop the given
characters from both ends. -/
def stripChars (s : String) (cs : List Char) : String :=
  String.mk (((s.data.dropWhile (fun c => cs.contains c)).reverse.dropWhile
    (fun c => cs.contains c)).reverse)

/-- The two brace characters, written via escapes. -/
def braceChars : List Char := ['\x7b', '\x7d']

/-! ## Synthesizer -/

/-- A synthesized final answer: the Python value placed in the
`final_answer` field.  `rows` is the raw-rows fallback (Python returns
the row list itself); `none` is Python `None` (only the batch runner's
error fallback produces it). -/
inductive Ans where
  | int (n : ℤ)
  | float (q : ℚ)
  | str (s : String)
  | obj (fields : List (String × Ans))
  | list (items : List Ans)
  | rows (rs : List Row)
  | none
deriving Repr

/-- Python truthiness of an answer value (`if final_answer`): zero,
empty containers, the empty string and `None` are falsy. -/
def truthy : Ans → Bool
  | .int n => n != 0
  | .float q => q != 0
  | .str s => s != ""
  | .obj fields => !fields.isEmpty
  | .list items => !items.isEmpty
  | .rows rs => !rs.isEmpty
  | .none => false

/-- `Synthesizer._parse_format_spec`: split the spec on commas, keep the
parts holding a colon, split each at the first colon, trim key and
type. -/
def parse_format_spec (spec : String) : List (String × String) :=
  (splitOnChar ',' spec.data).filterMap (fun part =>
    match splitFirst ':' (trimStr (String.mk part)).data with
    | some p => some (trimStr (String.mk p.1), trimStr (String.mk p.2))
    | Option.none => Option.none)

/-- The zero value of a declared field type, from the empty-rows branch
of `Synthesizer._extract_object`. -/
def zeroOf (typ : String) : Ans :=
  if typ == "int" then .int 0
  else if typ == "float" then .float 0
  else .str ""

/-- Modelled Python `str(v)` for a cell value.  The exact rendering of
numbers is not load-bearing for any claim. -/
def pyStr : PyVal → String
  | .int n => toString n
  | .float q => toString q
  | .str s => s
  | .none => "None"

/-- `Synthesizer._extract_typed_value`: find the column matching the key
case-insensitively, fall back to an exact lookup when that gave `None`,
then convert per the declared type. -/
def extract_typed_value (row : Row) (columns : List String) (key typ : String) : Ans :=
  let v1 :=
    match columns.find? (fun c => lowerStr c == lowerStr key) with
    | some c => rowGet row c
    | Option.none => PyVal.none
  let val := if v1 = PyVal.none then rowGet row key else v1
  if typ == "int" then
    .int (match pyFloat? val with
          | some q => roundHalfEven q
          | Option.none => 0)
  else if typ == "float" then
    .float (match pyFloat? val with
            | some q => pyRound2 q
            | Option.none => 0)
  else
    .str (if val = PyVal.none then "" else pyStr val)

/-- First numeric-convertible cell of a row scanned in column order
(`None` cells and unconvertible strings are skipped). -/
def firstNumeric (r : Row) : List String → Option ℚ
  | [] => Option.none
  | c :: rest =>
    match pyFloat? (rowGet r c) with
    | some q => some q
    | Option.none => firstNumeric r rest

/-- `Synthesizer._extract_int`: first numeric cell of row 0 rounded to
the nearest integer, default 0. -/
def extract_int (rows : List Row) (columns : List String) : ℤ :=
  match rows with
  | [] => 0
  | first :: _ =>
    if columns.isEmpty then 0
    else
      match firstNumeric first columns with
      | some q => roundHalfEven q
      | Option.none => 0

/-- `Synthesizer._extract_float`: first numeric cell of row 0 rounded to
2 decimals, default 0.0. -/
def extract_float (rows : List Row) (columns : List String) : ℚ :=
  match rows with
  | [] => 0
  | first :: _ =>
    if columns.isEmpty then 0
    else
      match firstNumeric first columns with
      | some q => pyRound2 q
      | Option.none => 0

/-- `Synthesizer._extract_object`: the declared fields from row 0, or
their zero values when no row exists. -/
def extract_object (rows : List Row) (columns : List String) (format_hint : String) : Ans :=
  let inner := trimStr (stripChars format_hint braceChars)
  let key_types := parse_format_spec inner
  match rows with
  | row :: _ =>
    .obj (key_types.map (fun kt => (kt.1, extract_typed_value row columns kt.1 kt.2)))
  | [] =>
    .obj (key_types.map (fun kt => (kt.1, zeroOf kt.2)))

/-- Modelled Python `str(row)` for the untyped-list fallback of
`_extract_list`; the exact text is not load-bearing. -/
def pyStrRow (r : Row) : String :=
  joinSep ", " (r.map (fun p => p.1 ++ ": " ++ pyStr p.2))

/-- `Synthesizer._extract_list`: per-row object extraction over every
row; a non-object inner type degrades to `str(row)` per row. -/
def extract_list (rows : List Row) (columns : List String) (format_hint : String) : Ans :=
  let inner := trimStr (dropRightStr (dropStr format_hint 5) 1)
  if !(startsWithStr inner "\x7b") then
    .list (rows.map (fun r => .str (pyStrRow r)))
  else
    let obj_spec := trimStr (stripChars inner braceChars)
    let key_types := parse_format_spec obj_spec
    .list (rows.map (fun row =>
      .obj (key_types.map (fun kt => (kt.1, extract_typed_value row columns kt.1 kt.2)))))

/-- Python `sorted(set(l))` on strings: deduplicate, then sort
ascending (Python compares strings by code points, as does the `String`
linear order used here). -/
def pySortedSet (l : List String) : List String :=
  l.dedup.insertionSort (fun a b => a ≤ b)

/-- `Synthesizer._build_explanation`: a short sentence keyed on the
shape of the final answer. -/
def build_explanation (final : Ans) (row_count : ℕ) : String :=
  match final with
  | .list items => "Extracted " ++ toString items.length ++ " results from database."
  | .rows rs => "Extracted " ++ toString rs.length ++ " results from database."
  | .obj fields =>
    let keys := if fields.isEmpty then "no fields"
      else joinSep ", " (fields.map (fun p => p.1))
    "Retrieved object with fields: " ++ keys ++ "."
  | .int _ => "Computed scalar value from " ++ toString row_count ++ " database rows."
  | .float _ => "Computed scalar value from " ++ toString row_count ++ " database rows."
  | _ => "Result synthesized from query output."

/-- The confidence heuristic of `Synthesizer.synthesize` (lines
466-473): base 0.3, +0.4 for rows, +0.2 for a non-trivial SQL string,
+0.1 for zero repairs, clamped to [0.1, 0.99]. -/
def confHeuristic (rowsNonempty sqlLong : Bool) (repaired : ℕ) : ℚ :=
  let c := 3/10 + (if rowsNonempty then 4/10 else 0)
    + (if sqlLong then 2/10 else 0)
    + (if repaired == 0 then 1/10 else 0)
  min (99/100) (max (1/10) c)

/-- The record `Synthesizer.synthesize` returns. -/
structure SynthResult where
  final_answer : Ans
  citations : List String
  confidence : ℚ
  explanation : String
deriving Repr

/-- `Synthesizer.synthesize` (dspy_signatures.py lines 452-508). -/
def synthesize (rows : List Row) (columns : List String) (format_hint : String)
    (tables_used doc_chunk_ids : List String) (sql : String) (repaired : ℕ) :
    SynthResult :=
  let citations := pySortedSet (tables_used ++ doc_chunk_ids)
  let conf := confHeuristic (!rows.isEmpty) (sql != "" && sql.length > 20) repaired
  let fh := trimStr format_hint
  let final :=
    if fh == "int" then Ans.int (extract_int rows columns)
    else if fh == "float" then Ans.float (extract_float rows columns)
    else if startsWithStr fh "\x7b" && fh.data.any (fun c => c == ':') then
      extract_object rows columns fh
    else if startsWithStr fh "list[" then
      extract_list rows columns fh
    else if rows.isEmpty then Ans.list [] else Ans.rows rows
  { final_answer := final
    citations := citations
    confidence := pyRound2 conf
    explanation := build_explanation final rows.length }

/-! ## Shape validation, repair helpers and table extraction -/

/-- `HybridAgent._validate_shape` (graph_hybrid.py lines 522-553): a
scalar hint needs a numeric cell in row 0 (and non-empty rows and
columns), an object hint needs at least one row, everything else
passes. -/
def validate_shape (rows : List Row) (cols : List String) (format_hint : String) : Bool :=
  let fh := trimStr format_hint
  if fh == "int" then
    match rows with
    | [] => false
    | r0 :: _ =>
      if cols.isEmpty then false
      else cols.any (fun c => isNumber (rowGet r0 c))
  else if fh == "float" then
    match rows with
    | [] => false
    | r0 :: _ =>
      if cols.isEmpty then false
      else cols.any (fun c => isNumber (rowGet r0 c) && (pyFloat? (rowGet r0 c)).isSome)
  else if startsWithStr fh "\x7b" then
    !rows.isEmpty
  else if startsWithStr fh "list[" then
    true
  else
    true

/-- Python `s.rstrip(";")`: drop trailing semicolons. -/
def rstripSemi (s : String) : String :=
  String.mk ((s.data.reverse.dropWhile (fun c => c == ';')).reverse)

/-- `HybridAgent._wrap_scalar` (lines 566-569): re-wrap a query under an
outer aggregate; note the source compares the raw (unstripped) hint
with "float" here. -/
def wrap_scalar (sql : String) (format_hint : String) : String :=
  let agg := if format_hint == "float" then "ROUND(AVG(val), 2)" else "ROUND(AVG(val))"
  "SELECT " ++ agg ++ " as val FROM (" ++ rstripSemi sql ++ ") as sub;"

/-- `HybridAgent._simple_repair` (lines 571-580): double-quote the
`Order Details` identifier, the (dead) alias fix, and a trailing
semicolon. -/
def simple_repair (sql : String) : String :=
  let r := replaceStr sql "Order Details" "\"Order Details\""
  let r :=
    if containsSubstr r "JOIN Products p ON" && !containsSubstr r "Products p" then
      replaceStr r "JOIN Products ON" "JOIN Products p ON"
    else r
  if endsWithStr (trimStr r) ";" then r else trimStr r ++ ";"

/-- The `if not sql.strip().endswith(";")` normalization the loop
applies after each repair. -/
def ensure_semi (s : String) : String :=
  if endsWithStr (trimStr s) ";" then s else trimStr s ++ ";"

/-- The candidate table names of `HybridAgent._extract_tables_from_sql`
(lines 582-601). -/
def table_candidates : List String :=
  ["Orders", "Order Details", "Products", "Customers", "Categories",
   "Suppliers", "orders", "order_items", "products", "customers"]

/-- The canonical-name mapping used by `_extract_tables_from_sql`
(`mapping.get(key, orig)`: the original candidate when the lowered key
is absent from the table). -/
def canonicalTable (key orig : String) : String :=
  if key == "orders" then "Orders"
  else if key == "order details" then "Order Details"
  else if key == "order_items" then "Order Details"
  else if key == "products" then "Products"
  else if key == "customers" then "Customers"
  else if key == "categories" then "Categories"
  else if key == "suppliers" then "Suppliers"
  else orig

/-- `HybridAgent._extract_tables_from_sql`: empty query yields no
tables; otherwise collect canonical names found as lowercase substrings
and return them as a sorted set. -/
def extract_tables_from_sql (sql : String) : List String :=
  if sql == "" then []
  else
    let s := lowerStr sql
    pySortedSet ((table_candidates.filter
      (fun c => containsSubstr s (lowerStr c))).map (fun c => canonicalTable (lowerStr c) c))

/-! ## The bounded repair loop -/

/-- The query-service result record (`SQLiteTool.execute` /
`_FallbackSQLiteTool.execute`): success flag, rows, columns, error
text. -/
structure ExecResult where
  ok : Bool
  rows : List Row
  columns : List String
  error : Option String
deriving Repr

/-- The loop's terminal state: the final execution result, the last
query string issued, the attempt and repair counters, the last error,
and the list of every query string sent to the query service in
order. -/
structure LoopOut where
  exec_result : ExecResult
  sql_executed : String
  attempts : ℕ
  repaired : ℕ
  last_err : Option String
  exec_log : List String
deriving Repr

/-- One iteration of the `while True` repair loop of
`HybridAgent.answer` (graph_hybrid.py lines 409-496), entered with the
`attempts` counter already incremented for this iteration.  `execute`
is the opaque query service; `gen` is the (deterministic, hence
loop-invariant) result of `nl2sql.generate`, regenerated at the top of
every iteration exactly as in the source.  The structural `fuel`
argument carries the invariant `attempts + fuel = 4`: the source
recurses only under `attempts ≤ 2`, so the fuel-0 branch is
unreachable from `run_loop`.  In the execution-error branch the source
computes `self._simple_repair(sql)` plus a trailing semicolon before
`continue`, but the next iteration overwrites `sql` with the
regenerated query, so the repaired string is never executed and the
recursion carries no repaired string. -/
def loopGo (execute : String → ExecResult) (gen : String) (format_hint : String) :
    ℕ → ℕ → ℕ → Option String → List String → LoopOut
  | 0, attempts, repaired, lastErr, log =>
    { exec_result := ⟨false, [], [], lastErr⟩
      sql_executed := trimStr gen, attempts := attempts, repaired := repaired
      last_err := lastErr, exec_log := log }
  | fuel + 1, attempts, repaired, lastErr, log =>
    let sql := trimStr gen
    if sql == "" then
      { exec_result := ⟨false, [], [], some "Empty SQL generated"⟩
        sql_executed := sql, attempts := attempts, repaired := repaired
        last_err := some "Empty SQL generated", exec_log := log }
    else
      let res := execute sql
      let log1 := log ++ [sql]
      if res.ok then
        if validate_shape res.rows res.columns format_hint then
          { exec_result := ⟨true, res.rows, res.columns, Option.none⟩
            sql_executed := sql, attempts := attempts, repaired := repaired
            last_err := lastErr, exec_log := log1 }
        else
          let shapeErr := some ("Invalid shape: expected " ++ format_hint ++
            " but got columns=" ++ toString res.columns ++
            " rows=" ++ toString res.rows.length)
          if attempts ≤ 2 then
            let repaired' := repaired + 1
            let sql2 :=
              if trimStr format_hint == "int" || trimStr format_hint == "float" then
                wrap_scalar sql format_hint
              else simple_repair sql
            let sql2 := ensure_semi sql2
            let res2 := execute sql2
            let log2 := log1 ++ [sql2]
            if res2.ok then
              if validate_shape res2.rows res2.columns format_hint then
                { exec_result := ⟨true, res2.rows, res2.columns, Option.none⟩
                  sql_executed := sql2, attempts := attempts, repaired := repaired'
                  last_err := shapeErr, exec_log := log2 }
              else
                loopGo execute gen format_hint fuel (attempts + 1) repaired'
                  (some "Repair did not fix shape") log2
            else
              loopGo execute gen format_hint fuel (attempts + 1) repaired' res2.error log2
          else
            { exec_result := ⟨false, [], [], shapeErr⟩
              sql_executed := sql, attempts := attempts, repaired := repaired
              last_err := shapeErr, exec_log := log1 }
      else
        if attempts ≤ 2 then
          loopGo execute gen format_hint fuel (attempts + 1) (repaired + 1) res.error log1
        else
          { exec_result := ⟨false, [], [], res.error⟩
            sql_executed := sql, attempts := attempts, repaired := repaired
            last_err := res.error, exec_log := log1 }

/-- The repair loop as entered by `HybridAgent.answer`: first iteration
with `attempts = 1`, no repairs, empty history (`max_retries = 2`, so
at most three iterations run and the fuel of 3 is never exhausted). -/
def run_loop (execute : String → ExecResult) (gen format_hint : String) : LoopOut :=
  loopGo execute gen format_hint 3 1 0 Option.none []

/-! ## Router -/

/-- The RAG-only pattern tier of `Router.__init__`: every keyword of a
rule must occur. -/
def rag_only_patterns : List (List String) :=
  [["policy", "return"], ["return window"], ["return days"], ["unopened beverages"]]

/-- The SQL-only pattern tier of `Router.__init__`. -/
def sql_only_patterns : List (List String) :=
  [["top 3 products", "revenue", "alltime"], ["top 3 products"]]

/-- The hybrid pattern tier of `Router.__init__`. -/
def hybrid_patterns : List (List String) :=
  [["during", "summer"], ["during", "winter"], ["during", "1997"],
   ["category", "quantity", "summer"], ["aov", "winter"], ["aov", "during"],
   ["revenue", "beverages", "summer"], ["best customer", "margin", "1997"],
   ["gross margin", "1997"]]

/-- `Router.predict` (dspy_signatures.py lines 57-81): tiers evaluated
in priority order on the lowercased question, then the keyword
fallback. -/
def router_predict (question : String) : String :=
  let q := lowerStr question
  if rag_only_patterns.any (fun pat => pat.all (fun p => containsSubstr q p)) then
    "rag"
  else if sql_only_patterns.any (fun pat => pat.all (fun p => containsSubstr q p)) then
    "sql"
  else if hybrid_patterns.any (fun pat => pat.all (fun p => containsSubstr q p)) then
    "hybrid"
  else if ["top", "revenue", "total", "average", "margin", "quantity"].any
      (fun kw => containsSubstr q kw) then
    if ["during", "summer", "winter", "1997", "date"].any
        (fun kw => containsSubstr q kw) then "hybrid"
    else "sql"
  else
    "hybrid"

/-- The orchestrator's route step (graph_hybrid.py lines 340-348): a
router fault (modelled as `none`) degrades to the hybrid route. -/
def route_step (routed : Option String) : String :=
  match routed with
  | some r => r
  | Option.none => "hybrid"

/-! ## Planner -/

/-- A retrieved fragment as the pipeline consumes it: stable chunk
identifier and text. -/
structure Chunk where
  chunk_id : String
  text : String
deriving Repr

/-- The fragment-id list `doc_chunk_ids` of `HybridAgent.answer` (line
360): ids in retrieval order, falsy (empty) ids dropped. -/
def doc_chunk_ids (retrieved : List Chunk) : List String :=
  (retrieved.map (fun c => c.chunk_id)).filter (fun s => s != "")

/-- Match of the `Planner.DATE_RE` pattern `\d{4}-\d{2}-\d{2}` at the
head of the character list. -/
def dateMatchAt (cs : List Char) : Option String :=
  match cs.take 10 with
  | [a, b, c, d, e, f, g, h, i, j] =>
    if a.isDigit && b.isDigit && c.isDigit && d.isDigit && e == '-' &&
       f.isDigit && g.isDigit && h == '-' && i.isDigit && j.isDigit then
      some (String.mk [a, b, c, d, e, f, g, h, i, j])
    else Option.none
  | _ => Option.none

/-- `re.findall` of `Planner.DATE_RE`: non-overlapping left-to-right
scan.  A match is 10 characters long, so after one the scan skips the
9 characters still inside it (the skip counter keeps the recursion
structural). -/
def dateScan : ℕ → List Char → List String
  | _, [] => []
  | skip + 1, _ :: tail => dateScan skip tail
  | 0, cs@(_ :: tail) =>
    match dateMatchAt cs with
    | some d => d :: dateScan 9 tail
    | Option.none => dateScan 0 tail

/-- All `DATE_RE` matches of a character list, leftmost first. -/
def dateFindAll (cs : List Char) : List String :=
  dateScan 0 cs

/-- The `Planner.YEAR_MAPPING` table (dspy_signatures.py lines
99-106). -/
def YEAR_MAPPING : List (String × String) :=
  [("1997_summer", "2013"), ("1997_winter", "2017"), ("1997", "2013"),
   ("2012", "2012"), ("2013", "2013"), ("2014", "2014"), ("2015", "2015"),
   ("2016", "2016"), ("2017", "2017"), ("2018", "2018"), ("2019", "2019"),
   ("2020", "2020"), ("2021", "2021"), ("2022", "2022"), ("2023", "2023")]

/-- Python `YEAR_MAPPING.get(key, default)`. -/
def yearMapGet (key dflt : String) : String :=
  match YEAR_MAPPING.find? (fun p => p.1 == key) with
  | some p => p.2
  | Option.none => dflt

/-- The fixed category vocabulary of `Planner.CATEGORY_RE`. -/
def categoryVocab : List String :=
  ["Beverages", "Condiments", "Confections", "Dairy Products",
   "Grains/Cereals", "Meat/Poultry", "Produce", "Seafood"]

/-- Regex word characters (`\w`). -/
def isWordChar (c : Char) : Bool :=
  c.isAlphanum || c == '_'

/-- Case-insensitive comparison of a pattern against a prefix of the
input. -/
def matchesCI : List Char → List Char → Bool
  | [], _ => true
  | _ :: _, [] => false
  | p :: ps, c :: cs => p.toLower == c.toLower && matchesCI ps cs

/-- One alternation step of `CATEGORY_RE` at the current position:
alternatives tried left to right, the trailing `\b` checked after the
matched word (on failure the next alternative is tried, as the regex
engine backtracks).  Returns the matched text as it appears in the
input and the match length. -/
def firstCatMatch (cs : List Char) : Option (String × ℕ) :=
  (categoryVocab.filterMap (fun w =>
    let p := w.data
    if matchesCI p cs then
      match (cs.drop p.length).head? with
      | some nxt => if isWordChar nxt then Option.none
                    else some (String.mk (cs.take p.length), p.length)
      | Option.none => some (String.mk (cs.take p.length), p.length)
    else Option.none)).head?

/-- `re.finditer` of `CATEGORY_RE`: scan left to right, requiring the
leading word boundary (`prev` is the character before the current
position); on a match resume after it, else advance one character.
Every vocabulary word is non-empty so `max 1` never truncates a
match. -/
def findCats (prev : Option Char) : List Char → List String
  | [] => []
  | cs@(c :: tail) =>
    let boundary := match prev with
      | some p => !isWordChar p
      | Option.none => true
    match if boundary then firstCatMatch cs else Option.none with
    | some (w, n) =>
      w :: findCats (cs.take (max 1 n)).getLast? (cs.drop (max 1 n))
    | Option.none => findCats (some c) tail
termination_by cs => cs.length
decreasing_by all_goals (simp_all [List.length_drop]; try omega)

/-- The `Plan` record built by `Planner.plan`. -/
structure Plan where
  date_from : Option String
  date_to : Option String
  categories : List String
  kpi_hint : Option String
deriving Repr

/-- The KPI-hint rules of `Planner.plan` (lines 157-165), first match
wins. -/
def kpi_hint_of (question : String) : Option String :=
  let q := lowerStr question
  if containsSubstr q "average order value" || containsSubstr q "aov" then some "AOV"
  else if containsSubstr q "gross margin" ||
      (containsSubstr q "margin" && containsSubstr q "customer") then some "MARGIN"
  else if containsSubstr q "revenue" || containsSubstr q "total revenue" then
    some "REVENUE"
  else if containsSubstr q "quantity" || containsSubstr q "sold" then some "QUANTITY"
  else Option.none

/-- `Planner.plan` (dspy_signatures.py lines 108-167): the year-mapped
date window (summer/winter/bare 1997) or literal date extraction from
the fragment text, plus categories and the KPI hint.  A total
function: missing cues leave the date bounds `none`. -/
def planner_plan (question : String) (retrieved : List Chunk) : Plan :=
  let doc_text := joinSep " " (retrieved.map (fun c => c.text))
  let combined := question ++ " " ++ doc_text
  let ql := lowerStr question
  let dates : Option String × Option String :=
    if containsSubstr ql "summer 1997" || containsSubstr ql "summer beverages 1997" then
      let y := yearMapGet "1997_summer" "2013"
      (some (y ++ "-06-01"), some (y ++ "-06-30"))
    else if containsSubstr ql "winter 1997" || containsSubstr ql "winter classics 1997" then
      let y := yearMapGet "1997_winter" "2017"
      (some (y ++ "-12-01"), some (y ++ "-12-31"))
    else if containsSubstr ql "1997" then
      let y := yearMapGet "1997" "2017"
      (some (y ++ "-01-01"), some (y ++ "-12-31"))
    else
      match dateFindAll doc_text.data with
      | [] => (Option.none, Option.none)
      | [d] => (some d, some d)
      | d1 :: d2 :: _ => (some d1, some d2)
  { date_from := dates.1
    date_to := dates.2
    categories := pySortedSet (findCats Option.none combined.data)
    kpi_hint := kpi_hint_of question }

/-! ## NL2SQL template catalog -/

/-- Python truthiness of an optional string (`if date_from`): present
and non-empty. -/
def optTruthy (o : Option String) : Bool :=
  match o with
  | some s => s != ""
  | Option.none => false

/-- `NL2SQL._tmpl_top3_products`. -/
def tmpl_top3_products (_plan : Plan) : String :=
  "SELECT p.ProductName as product, " ++
  "ROUND(SUM(od.UnitPrice * od.Quantity * (1 - od.Discount)), 2) as revenue " ++
  "FROM [Order Details] od " ++
  "JOIN Products p ON p.ProductID = od.ProductID " ++
  "GROUP BY p.ProductID " ++
  "ORDER BY revenue DESC " ++
  "LIMIT 3;"

/-- `NL2SQL._tmpl_aov_date_range`. -/
def tmpl_aov_date_range (plan : Plan) : String :=
  let whereClause :=
    if optTruthy plan.date_from && optTruthy plan.date_to then
      "WHERE o.OrderDate BETWEEN '" ++ plan.date_from.getD "" ++ "' AND '" ++
        plan.date_to.getD "" ++ "'"
    else if optTruthy plan.date_from then
      "WHERE o.OrderDate >= '" ++ plan.date_from.getD "" ++ "'"
    else ""
  "SELECT ROUND( " ++
  "SUM(od.UnitPrice * od.Quantity * (1 - od.Discount)) * 1.0 / NULLIF(COUNT(DISTINCT o.OrderID), 0), " ++
  "2) as aov " ++
  "FROM [Order Details] od " ++
  "JOIN Orders o ON o.OrderID = od.OrderID " ++
  whereClause ++ ";"

/-- `NL2SQL._tmpl_category_revenue`. -/
def tmpl_category_revenue (plan : Plan) : String :=
  let category := match plan.categories with
    | c :: _ => c
    | [] => "Beverages"
  let whereDate :=
    if optTruthy plan.date_from && optTruthy plan.date_to then
      "AND o.OrderDate BETWEEN '" ++ plan.date_from.getD "" ++ "' AND '" ++
        plan.date_to.getD "" ++ "'"
    else if optTruthy plan.date_from then
      "AND o.OrderDate >= '" ++ plan.date_from.getD "" ++ "'"
    else ""
  "SELECT ROUND(SUM(od.UnitPrice * od.Quantity * (1 - od.Discount)), 2) as revenue " ++
  "FROM [Order Details] od " ++
  "JOIN Orders o ON o.OrderID = od.OrderID " ++
  "JOIN Products p ON p.ProductID = od.ProductID " ++
  "JOIN Categories c ON c.CategoryID = p.CategoryID " ++
  "WHERE c.CategoryName = '" ++ category ++ "' " ++
  whereDate ++ ";"

/-- `NL2SQL._tmpl_top_category_qty`. -/
def tmpl_top_category_qty (plan : Plan) : String :=
  let whereDate :=
    if optTruthy plan.date_from && optTruthy plan.date_to then
      "WHERE o.OrderDate BETWEEN '" ++ plan.date_from.getD "" ++ "' AND '" ++
        plan.date_to.getD "" ++ "'"
    else if optTruthy plan.date_from then
      "WHERE o.OrderDate >= '" ++ plan.date_from.getD "" ++ "'"
    else ""
  "SELECT c.CategoryName as category, SUM(od.Quantity) as quantity " ++
  "FROM [Order Details] od " ++
  "JOIN Orders o ON o.OrderID = od.OrderID " ++
  "JOIN Products p ON p.ProductID = od.ProductID " ++
  "JOIN Categories c ON c.CategoryID = p.CategoryID " ++
  whereDate ++ " " ++
  "GROUP BY c.CategoryID " ++
  "ORDER BY quantity DESC LIMIT 1;"

/-- `NL2SQL._tmpl_best_customer_margin_year`. -/
def tmpl_best_customer_margin_year (plan : Plan) : String :=
  let year := if optTruthy plan.date_from then takeStr (plan.date_from.getD "") 4
    else "1997"
  "SELECT cu.CompanyName as customer, " ++
  "ROUND(SUM((od.UnitPrice * (1 - 0.7)) * od.Quantity * (1 - od.Discount)), 2) as margin " ++
  "FROM [Order Details] od " ++
  "JOIN Orders o ON o.OrderID = od.OrderID " ++
  "JOIN Customers cu ON cu.CustomerID = o.CustomerID " ++
  "WHERE strftime('%Y', o.OrderDate) = '" ++ year ++ "' " ++
  "GROUP BY cu.CustomerID " ++
  "ORDER BY margin DESC LIMIT 1;"

/-- `NL2SQL._intent_match` (dspy_signatures.py lines 308-334): exact
patterns, then KPI-keyword fallbacks, then the safe default. -/
def intent_match (question : String) : String :=
  let q := lowerStr question
  if containsSubstr q "top 3 products" && containsSubstr q "revenue" then
    "top3_products_revenue"
  else if (containsSubstr q "average order value" || containsSubstr q "aov") &&
      (containsSubstr q "during" || containsSubstr q "1997") then
    "aov_date_range"
  else if containsSubstr q "category" && containsSubstr q "highest total quantity" then
    "top_category_qty_date_range"
  else if containsSubstr q "total revenue" && containsSubstr q "beverages" &&
      (containsSubstr q "summer" || containsSubstr q "1997") then
    "category_revenue_date_range"
  else if containsSubstr q "top customer" && containsSubstr q "margin" &&
      containsSubstr q "1997" then
    "best_customer_margin_year"
  else if containsSubstr q "margin" then "best_customer_margin_year"
  else if containsSubstr q "quantity" then "top_category_qty_date_range"
  else if containsSubstr q "revenue" && !containsSubstr q "category" then
    "top3_products_revenue"
  else if containsSubstr q "aov" || containsSubstr q "average order value" then
    "aov_date_range"
  else "top3_products_revenue"

/-- `NL2SQL.generate` (lines 406-431): run the matched intent's
template (all five intents are in the catalog) and ensure a trailing
semicolon. -/
def nl2sql_generate (question : String) (plan : Plan) : String :=
  let intent := intent_match question
  let sql :=
    if intent == "top3_products_revenue" then tmpl_top3_products plan
    else if intent == "aov_date_range" then tmpl_aov_date_range plan
    else if intent == "category_revenue_date_range" then tmpl_category_revenue plan
    else if intent == "top_category_qty_date_range" then tmpl_top_category_qty plan
    else tmpl_best_customer_margin_year plan
  if endsWithStr (trimStr sql) ";" then sql else trimStr sql ++ ";"

/-! ## The RAG branch's extraction patterns -/

/-- An item of the two linear regular expressions the RAG branch uses:
a case-insensitive literal, a lazy `.*?` (DOTALL), an optional colon
`:?`, greedy whitespace `\s*`, or the capturing `(\d{1,3})`. -/
inductive RItem where
  | lit (s : String)
  | lazyAny
  | optColon
  | wsStar
  | digits13
deriving Repr, DecidableEq

/-- Case-insensitive literal match: on success the remaining input. -/
def litMatch : List Char → List Char → Option (List Char)
  | [], cs => some cs
  | _ :: _, [] => Option.none
  | p :: ps, c :: cs => if p.toLower == c.toLower then litMatch ps cs else Option.none

/-- Lazy expansion of `.*?`: try the continuation at the current
position first, then one character further, and so on (DOTALL: any
character may be skipped). -/
def firstSome (k : List Char → Option (List Char)) : List Char → Option (List Char)
  | [] => k []
  | cs@(_ :: tail) =>
    match k cs with
    | some g => some g
    | Option.none => firstSome k tail

/-- Greedy expansion of `\s*` with backtracking: consume as much
whitespace as possible, falling back one character at a time. -/
def wsGreedy (k : List Char → Option (List Char)) : List Char → Option (List Char)
  | [] => k []
  | cs@(c :: tail) =>
    if c.isWhitespace then
      match wsGreedy k tail with
      | some g => some g
      | Option.none => k cs
    else k cs

/-- Backtracking matcher for a linear pattern at the start of the
input, mirroring the regex engine's preference order: lazy `.*?` tries
the empty expansion first, `:?` prefers consuming, `\s*` is greedy,
`\d{1,3}` tries three digits down to one.  Returns the digits captured
by the (single) `digits13` item of the pattern. -/
def matchSeq : List RItem → List Char → Option (List Char)
  | [], _ => some []
  | .lit s :: rest, cs =>
    match litMatch s.data cs with
    | some cs' => matchSeq rest cs'
    | Option.none => Option.none
  | .lazyAny :: rest, cs => firstSome (matchSeq rest) cs
  | .optColon :: rest, cs =>
    match cs with
    | c :: cs' =>
      if c == ':' then
        match matchSeq rest cs' with
        | some g => some g
        | Option.none => matchSeq rest cs
      else matchSeq rest cs
    | [] => matchSeq rest cs
  | .wsStar :: rest, cs => wsGreedy (matchSeq rest) cs
  | .digits13 :: rest, cs =>
    let tryLen : ℕ → Option (List Char) := fun k =>
      let ds := cs.take k
      if ds.length == k && ds.all (fun c => c.isDigit) then
        match matchSeq rest (cs.drop k) with
        | some _ => some ds
        | Option.none => Option.none
      else Option.none
    match tryLen 3 with
    | some g => some g
    | Option.none =>
      match tryLen 2 with
      | some g => some g
      | Option.none => tryLen 1

/-- `re.search` over a linear pattern: try each start position left to
right (the final empty position included). -/
def reSearch (items : List RItem) : List Char → Option (List Char)
  | [] => matchSeq items []
  | cs@(_ :: tail) =>
    match matchSeq items cs with
    | some g => some g
    | Option.none => reSearch items tail

/-- The pattern `(\d{1,3})\s*days` of the RAG int branch
(graph_hybrid.py line 380). -/
def patDays : List RItem := [.digits13, .wsStar, .lit "days"]

/-- The pattern `Beverages.*?unopened.*?:?\s*(\d{1,3})\s*days` of the
RAG int branch (line 379), case-insensitive with DOTALL. -/
def patBev : List RItem :=
  [.lit "Beverages", .lazyAny, .lit "unopened", .lazyAny, .optColon, .wsStar,
   .digits13, .wsStar, .lit "days"]

/-- Search for the plain day-count pattern; the captured digits as a
number. -/
def days_search (s : String) : Option ℕ :=
  (reSearch patDays s.data).map digitsToNat

/-- Search for the Beverages-unopened day-count pattern. -/
def bev_search (s : String) : Option ℕ :=
  (reSearch patBev s.data).map digitsToNat

/-- Match of the float-branch pattern `(\d+\.\d+|\d+)` at the current
position: the decimal alternative is preferred, falling back to the
plain integer one. -/
def numMatchAt (cs : List Char) : Option ℚ :=
  match cs with
  | [] => Option.none
  | c :: _ =>
    if c.isDigit then
      let d1 := cs.takeWhile (fun c => c.isDigit)
      let r1 := cs.dropWhile (fun c => c.isDigit)
      match r1 with
      | '.' :: r2 =>
        let d2 := r2.takeWhile (fun c => c.isDigit)
        if d2.isEmpty then some (digitsToNat d1 : ℚ)
        else some ((digitsToNat d1 : ℚ) + (digitsToNat d2 : ℚ) / (10 : ℚ) ^ d2.length)
      | _ => some (digitsToNat d1 : ℚ)
    else Option.none

/-- `re.search` of `(\d+\.\d+|\d+)` (line 386): leftmost numeric
token. -/
def num_search : List Char → Option ℚ
  | [] => Option.none
  | cs@(_ :: tail) =>
    match numMatchAt cs with
    | some q => some q
    | Option.none => num_search tail

/-! ## The orchestrator -/

/-- The concatenation `" ".join(r.get("text","") for r in retrieved)`
of the RAG branch (line 376). -/
def combined_text (retrieved : List Chunk) : String :=
  joinSep " " (retrieved.map (fun c => c.text))

/-- The manually extracted `final_answer` of the RAG-only branch of
`HybridAgent.answer` (graph_hybrid.py lines 374-393): the day-count
patterns for an int hint (preferring the Beverages-unopened context,
hardcoded 14 when neither matches), the first numeric token for a
float hint, the empty object / empty list for object / list hints, a
500-character excerpt otherwise. -/
def rag_final_answer (format_hint : String) (combined : String) : Ans :=
  let fh := trimStr format_hint
  if fh == "int" then
    match bev_search combined with
    | some n => .int (n : ℤ)
    | Option.none =>
      match days_search combined with
      | some n => .int (n : ℤ)
      | Option.none => .int 14
  else if fh == "float" then
    match num_search combined.data with
    | some q => .float q
    | Option.none => .float 0
  else if startsWithStr fh "\x7b" then .obj []
  else if startsWithStr fh "list[" then .list []
  else .str (takeStr combined 500)

/-- A response object as assembled by `HybridAgent.answer` /
`run_agent_hybrid.run` (the `id` field is pass-through and
omitted). -/
structure Response where
  final_answer : Ans
  sql : String
  confidence : ℚ
  explanation : String
  citations : List String
deriving Repr

/-- The RAG-only branch of `HybridAgent.answer` (lines 374-406): the
manually extracted answer, no SQL, confidence 0.6 for a truthy answer
else 0.3, the synthesizer consulted only for the explanation, citations
the fragment ids as retrieved. -/
def rag_answer (format_hint : String) (retrieved : List Chunk) : Response :=
  let combined := combined_text retrieved
  let ids := doc_chunk_ids retrieved
  let fa := rag_final_answer format_hint combined
  let synth := synthesize [] [] format_hint [] ids "" 0
  { final_answer := fa
    sql := ""
    confidence := if truthy fa then 6/10 else 3/10
    explanation := synth.explanation
    citations := ids }

/-- The structured/hybrid tail of `HybridAgent.answer` (lines 408-519):
run the repair loop on the generated query, then synthesize; citations
are the sorted deduplicated union of extracted table names and fragment
ids; the reported SQL is emptied on failure. -/
def structured_answer (execute : String → ExecResult) (gen format_hint : String)
    (retrieved : List Chunk) : Response :=
  let ids := doc_chunk_ids retrieved
  let out := run_loop execute gen format_hint
  let rows := out.exec_result.rows
  let cols := out.exec_result.columns
  let tables := extract_tables_from_sql out.sql_executed
  let citations := pySortedSet (tables ++ ids)
  let s := synthesize rows cols format_hint tables ids out.sql_executed out.repaired
  { final_answer := s.final_answer
    sql := if out.exec_result.ok then out.sql_executed else ""
    confidence := s.confidence
    explanation :=
      if s.explanation == "" then
        takeStr (match out.exec_result.error with
                 | some e => e
                 | Option.none => "") 200
      else s.explanation
    citations := citations }

/-- `HybridAgent.answer` as a function of the question, the hint, the
retrieved fragments and the query-service oracle: route, then the RAG
branch or the structured branch over the generated query. -/
def agent_answer (execute : String → ExecResult) (question format_hint : String)
    (retrieved : List Chunk) : Response :=
  let route := router_predict question
  if route == "rag" then
    rag_answer format_hint retrieved
  else
    structured_answer execute
      (nl2sql_generate question (planner_plan question retrieved)) format_hint retrieved

/-- The per-question exception fallback of `run_agent_hybrid.run`
(lines 29-38): a `None` answer, empty SQL, confidence 0.0, the error
text as explanation, no citations. -/
def error_response (err : String) : Response :=
  { final_answer := .none
    sql := ""
    confidence := 0
    explanation := err
    citations := [] }

/-! ## Helper lemmas -/

/-- A numeric-convertible value always converts. -/
lemma pyFloat_isSome_of_isNumber (v : PyVal) (h : isNumber v = true) :
    (pyFloat? v).isSome = true := by
  cases v <;> simp_all [isNumber, pyFloat?]

/-- Rounding to two decimals fixes every exact hundredth. -/
lemma pyRound2_hundredth (m : ℤ) : pyRound2 ((m : ℚ) / 100) = (m : ℚ) / 100 := by
  have h : ((m : ℚ) / 100) * 100 = (m : ℚ) := by field_simp
  unfold pyRound2 roundHalfEven
  rw [h]
  norm_num [Int.floor_intCast]

/-- The confidence heuristic always lands on an exact hundredth inside
[0.1, 0.99]. -/
lemma confHeuristic_cases (b1 b2 : Bool) (r : ℕ) :
    ∃ m : ℤ, confHeuristic b1 b2 r = (m : ℚ) / 100 ∧
      1/10 ≤ (m : ℚ) / 100 ∧ (m : ℚ) / 100 ≤ 99/100 := by
  unfold confHeuristic
  rcases b1 <;> rcases b2 <;> by_cases hr : r = 0 <;> simp [hr]
  · exact ⟨40, by norm_num, by norm_num, by norm_num⟩
  · exact ⟨30, by norm_num, by norm_num, by norm_num⟩
  · exact ⟨60, by norm_num, by norm_num, by norm_num⟩
  · exact ⟨50, by norm_num, by norm_num, by norm_num⟩
  · exact ⟨80, by norm_num, by norm_num, by norm_num⟩
  · exact ⟨70, by norm_num, by norm_num, by norm_num⟩
  · exact ⟨99, by norm_num, by norm_num, by norm_num⟩
  · exact ⟨90, by norm_num, by norm_num, by norm_num⟩

/-- The synthesized confidence, in closed form. -/
lemma synthesize_confidence (rows : List Row) (cols : List String) (hint : String)
    (tables ids : List String) (sql : String) (rep : ℕ) :
    (synthesize rows cols hint tables ids sql rep).confidence =
      confHeuristic (!rows.isEmpty) (sql != "" && sql.length > 20) rep := by
  obtain ⟨m, hm, _, _⟩ := confHeuristic_cases (!rows.isEmpty) (sql != "" && sql.length > 20) rep
  simp only [synthesize, hm, pyRound2_hundredth]

/-! ## C8 -/

/-- C8: the Router is deterministic and total.  Every question string
(including the empty one) is classified by `router_predict` as one of
the three routes "rag", "sql", "hybrid"; identical question text gives
the identical route; and the orchestrator's route step maps a router
fault (`none`) to the combined ("hybrid") route. -/
theorem c8_router_total_deterministic :
    (∀ q : String, router_predict q = "rag" ∨ router_predict q = "sql" ∨
      router_predict q = "hybrid") ∧
    router_predict "" = "hybrid" ∧
    (∀ q₁ q₂ : String, q₁ = q₂ → router_predict q₁ = router_predict q₂) ∧
    route_step Option.none = "hybrid" := by
  refine ⟨?_, by decide, ?_, rfl⟩
  · intro q
    simp only [router_predict]
    split_ifs <;> simp
  · intro q₁ q₂ h
    rw [h]

/-- C8 witness: the determinism clause applied at a concrete
question. -/
theorem c8_router_witness :
    router_predict "Top 3 products by total revenue all-time." =
      router_predict "Top 3 products by total revenue all-time." :=
  c8_router_total_deterministic.2.2.1 _ _ rfl

/-! ## C4 -/

/-- C4 counterexample: the batch runner's error-fallback response
carries confidence 0.0, outside the claimed interval [0.1, 0.99], so
the bound does not hold for every response the pipeline emits. -/
theorem c4_counterexample :
    (error_response "processing failed").confidence = 0 ∧
    ¬ (1/10 ≤ (error_response "processing failed").confidence ∧
       (error_response "processing failed").confidence ≤ 99/100) := by
  refine ⟨rfl, ?_⟩
  intro h
  have h1 := h.1
  norm_num [error_response] at h1

/-- C4 amended: every confidence produced by the synthesizer equals the
stated heuristic (base 0.3, +0.4 for rows, +0.2 for a non-trivial
query string, +0.1 for zero repairs, clamped) and lies within
[0.1, 0.99]; every reference-only (RAG) response's confidence lies
within [0.1, 0.99] as well.  The batch runner's error-fallback response
is the exception: its confidence is 0.0. -/
theorem c4_confidence_bounds_amended :
    (∀ (rows : List Row) (cols : List String) (hint : String)
      (tables ids : List String) (sql : String) (rep : ℕ),
      (synthesize rows cols hint tables ids sql rep).confidence =
        min (99/100) (max (1/10)
          ((3:ℚ)/10 + (if rows ≠ [] then 4/10 else 0) +
            (if sql ≠ "" ∧ sql.length > 20 then 2/10 else 0) +
            (if rep = 0 then 1/10 else 0))) ∧
      1/10 ≤ (synthesize rows cols hint tables ids sql rep).confidence ∧
      (synthesize rows cols hint tables ids sql rep).confidence ≤ 99/100) ∧
    (∀ (hint : String) (retrieved : List Chunk),
      1/10 ≤ (rag_answer hint retrieved).confidence ∧
      (rag_answer hint retrieved).confidence ≤ 99/100) := by
  constructor
  · intro rows cols hint tables ids sql rep
    rw [synthesize_confidence]
    obtain ⟨m, hm, hlo, hhi⟩ :=
      confHeuristic_cases (!rows.isEmpty) (sql != "" && sql.length > 20) rep
    refine ⟨?_, by rw [hm]; exact hlo, by rw [hm]; exact hhi⟩
    unfold confHeuristic
    by_cases h1 : rows = [] <;> by_cases h2 : sql = "" <;>
      by_cases h3 : sql.length > 20 <;> by_cases h4 : rep = 0 <;>
      simp [h1, h2, h3, h4]
  · intro hint retrieved
    unfold rag_answer
    by_cases h : truthy (rag_final_answer hint (combined_text retrieved)) = true <;>
      simp [h] <;> norm_num

/-! ## C5 -/

/-- C5 counterexample: with all other synthesizer inputs fixed, repair
counts 1 and 2 give the same confidence, so confidence does not
strictly decrease from repair count 1 to repair count 2. -/
theorem c5_counterexample :
    (synthesize [[("x", .int 5)]] ["x"] "int" [] [] "SELECT revenue FROM somewhere" 1).confidence =
      (synthesize [[("x", .int 5)]] ["x"] "int" [] [] "SELECT revenue FROM somewhere" 2).confidence ∧
    ¬ ((synthesize [[("x", .int 5)]] ["x"] "int" [] [] "SELECT revenue FROM somewhere" 2).confidence <
       (synthesize [[("x", .int 5)]] ["x"] "int" [] [] "SELECT revenue FROM somewhere" 1).confidence) := by
  rw [synthesize_confidence, synthesize_confidence]
  norm_num [confHeuristic]

/-- C5 amended: holding all other synthesizer inputs fixed, the
confidence is the same for any two positive repair counts, and any
positive repair count gives strictly lower confidence than repair count
0.  (The heuristic only tests `repaired == 0`.) -/
theorem c5_confidence_monotone_amended :
    ∀ (rows : List Row) (cols : List String) (hint : String)
      (tables ids : List String) (sql : String) (j k : ℕ),
      (synthesize rows cols hint tables ids sql (j + 1)).confidence =
        (synthesize rows cols hint tables ids sql (k + 1)).confidence ∧
      (synthesize rows cols hint tables ids sql (j + 1)).confidence <
        (synthesize rows cols hint tables ids sql 0).confidence := by
  intro rows cols hint tables ids sql j k
  rw [synthesize_confidence, synthesize_confidence, synthesize_confidence]
  constructor
  · unfold confHeuristic
    norm_num
  · unfold confHeuristic
    rcases hb1 : !rows.isEmpty <;> rcases hb2 : sql != "" && sql.length > 20 <;>
      simp only [hb1, hb2, if_true, if_false, Bool.false_eq_true, Bool.true_eq_false,
        Nat.add_eq_zero, Nat.succ_ne_zero, beq_iff_eq, and_false, false_and,
        reduceIte, Nat.add_one_ne_zero] <;> norm_num

/-! ## C2 -/

/-- C2 counterexample: a query service that always succeeds with zero
rows against an `int` hint drives the loop through 5 executions (three
generate-execute iterations, the first two each followed by an inline
repaired execution) — more than the claimed bound of 3. -/
theorem c2_counterexample :
    (run_loop (fun _ => ⟨true, [], ["x"], Option.none⟩)
      "SELECT revenue FROM t" "int").exec_log.length = 5 ∧
    ¬ ((run_loop (fun _ => ⟨true, [], ["x"], Option.none⟩)
      "SELECT revenue FROM t" "int").exec_log.length ≤ 3) := by
  refine ⟨rfl, by decide⟩

/-- Bounds on one whole run of the loop, by functional induction over
its iterations: under the entry invariant `attempts + fuel = 4`, the
loop finishes by attempt 3, adds at most `fuel - 1` repairs, and issues
at most `2 * fuel - 1` executions. -/
lemma loopGo_bounds (ex : String → ExecResult) (gen hint : String)
    (fuel attempts r : ℕ) (e : Option String) (log : List String) :
    attempts + fuel = 4 → 1 ≤ fuel →
    ((loopGo ex gen hint fuel attempts r e log).attempts ≤ 3 ∧
     (loopGo ex gen hint fuel attempts r e log).repaired ≤ r + (fuel - 1) ∧
     (loopGo ex gen hint fuel attempts r e log).exec_log.length ≤
       log.length + (2 * fuel - 1)) := by
  induction fuel, attempts, r, e, log using loopGo.induct ex gen hint with
  | case1 attempts r e log =>
    intro h1 h2
    exact absurd h2 (by omega)
  | case2 fuel attempts r e log sql hsql =>
    intro h1 h2
    rw [loopGo.eq_2, if_pos hsql]
    try dsimp only
    refine ⟨by omega, by omega, by omega⟩
  | case3 fuel attempts r e log sql hsql res hok hval =>
    intro h1 h2
    have hok' : (ex (trimStr gen)).ok = true := hok
    have hval' : validate_shape (ex (trimStr gen)).rows (ex (trimStr gen)).columns hint = true := hval
    rw [loopGo.eq_2, if_neg hsql]
    simp only [hok', hval', if_true, eq_self_iff_true]
    try dsimp only
    refine ⟨by omega, by omega, ?_⟩
    simp only [List.length_append, List.length_cons, List.length_nil]
    omega
  | case4 fuel attempts r e log sql hsql res hok hval hatt sql2 sql2e res2 hok2 hval2 =>
    intro h1 h2
    have hok' : (ex (trimStr gen)).ok = true := hok
    have hval' : ¬ validate_shape (ex (trimStr gen)).rows (ex (trimStr gen)).columns hint = true := hval
    have hok2' : (ex (ensure_semi (if (trimStr hint == "int" || trimStr hint == "float") = true then
        wrap_scalar (trimStr gen) hint else simple_repair (trimStr gen)))).ok = true := hok2
    have hval2' : validate_shape
        (ex (ensure_semi (if (trimStr hint == "int" || trimStr hint == "float") = true then
          wrap_scalar (trimStr gen) hint else simple_repair (trimStr gen)))).rows
        (ex (ensure_semi (if (trimStr hint == "int" || trimStr hint == "float") = true then
          wrap_scalar (trimStr gen) hint else simple_repair (trimStr gen)))).columns hint = true := hval2
    rw [loopGo.eq_2, if_neg hsql]
    simp only [hok', hval', hok2', hval2', if_true, eq_self_iff_true, if_false,
      Bool.false_eq_true, hatt, if_pos]
    try dsimp only
    refine ⟨by omega, by omega, ?_⟩
    simp only [List.length_append, List.length_cons, List.length_nil]
    omega
  | case5 fuel attempts r e log sql hsql res log1 hok hval hatt rep sql2 sql2e res2 log2 hok2 hval2 ih =>
    intro h1 h2
    have H := ih (by omega) (by omega)
    unfold log2 log1 at H
    have hok' : (ex (trimStr gen)).ok = true := hok
    have hval' : ¬ validate_shape (ex (trimStr gen)).rows (ex (trimStr gen)).columns hint = true := hval
    have hok2' : (ex (ensure_semi (if (trimStr hint == "int" || trimStr hint == "float") = true then
        wrap_scalar (trimStr gen) hint else simple_repair (trimStr gen)))).ok = true := hok2
    have hval2' : ¬ validate_shape
        (ex (ensure_semi (if (trimStr hint == "int" || trimStr hint == "float") = true then
          wrap_scalar (trimStr gen) hint else simple_repair (trimStr gen)))).rows
        (ex (ensure_semi (if (trimStr hint == "int" || trimStr hint == "float") = true then
          wrap_scalar (trimStr gen) hint else simple_repair (trimStr gen)))).columns hint = true := hval2
    rw [loopGo.eq_2, if_neg hsql]
    simp only [hok', hval', hok2', hval2', if_true, eq_self_iff_true, if_false,
      Bool.false_eq_true, hatt, if_pos]
    refine ⟨H.1, H.2.1.trans (by omega), H.2.2.trans ?_⟩
    simp only [List.length_append, List.length_cons, List.length_nil]
    omega
  | case6 fuel attempts r e log sql hsql res log1 hok hval hatt rep sql2 sql2e res2 log2 hok2 ih =>
    intro h1 h2
    have H := ih (by omega) (by omega)
    unfold log2 log1 at H
    have hok' : (ex (trimStr gen)).ok = true := hok
    have hval' : ¬ validate_shape (ex (trimStr gen)).rows (ex (trimStr gen)).columns hint = true := hval
    have hok2' : ¬ (ex (ensure_semi (if (trimStr hint == "int" || trimStr hint == "float") = true then
        wrap_scalar (trimStr gen) hint else simple_repair (trimStr gen)))).ok = true := hok2
    rw [loopGo.eq_2, if_neg hsql]
    simp only [hok', hval', hok2', if_true, eq_self_iff_true, if_false,
      Bool.false_eq_true, hatt, if_pos]
    refine ⟨H.1, H.2.1.trans (by omega), H.2.2.trans ?_⟩
    simp only [List.length_append, List.length_cons, List.length_nil]
    omega
  | case7 fuel attempts r e log sql hsql res hok hval hatt =>
    intro h1 h2
    have hok' : (ex (trimStr gen)).ok = true := hok
    have hval' : ¬ validate_shape (ex (trimStr gen)).rows (ex (trimStr gen)).columns hint = true := hval
    rw [loopGo.eq_2, if_neg hsql]
    simp only [hok', hval', if_true, eq_self_iff_true, if_false, Bool.false_eq_true,
      hatt, if_neg]
    try dsimp only
    refine ⟨by omega, by omega, ?_⟩
    simp only [List.length_append, List.length_cons, List.length_nil]
    omega
  | case8 fuel attempts r e log sql hsql res log1 hok hatt ih =>
    intro h1 h2
    have H := ih (by omega) (by omega)
    unfold log1 at H
    have hok' : ¬ (ex (trimStr gen)).ok = true := hok
    rw [loopGo.eq_2, if_neg hsql]
    simp only [hok', if_true, eq_self_iff_true, if_false, Bool.false_eq_true, hatt, if_pos]
    refine ⟨H.1, H.2.1.trans (by omega), H.2.2.trans ?_⟩
    simp only [List.length_append, List.length_cons, List.length_nil]
    omega
  | case9 fuel attempts r e log sql hsql res hok hatt =>
    intro h1 h2
    have hok' : ¬ (ex (trimStr gen)).ok = true := hok
    rw [loopGo.eq_2, if_neg hsql]
    simp only [hok', if_true, eq_self_iff_true, if_false, Bool.false_eq_true, hatt, if_neg]
    try dsimp only
    refine ⟨by omega, by omega, ?_⟩
    simp only [List.length_append, List.length_cons, List.length_nil]
    omega

/-- Whenever the loop ends without a successful validated execution,
its final `exec_result` is the failed record — empty rows and columns —
carrying the loop's last recorded failure as its error. -/
lemma loopGo_failure_recorded (ex : String → ExecResult) (gen hint : String)
    (fuel attempts r : ℕ) (e : Option String) (log : List String) :
    (loopGo ex gen hint fuel attempts r e log).exec_result.ok = false →
    (loopGo ex gen hint fuel attempts r e log).exec_result =
      ⟨false, [], [], (loopGo ex gen hint fuel attempts r e log).last_err⟩ := by
  induction fuel, attempts, r, e, log using loopGo.induct ex gen hint with
  | case1 attempts r e log =>
    rw [loopGo.eq_1]
    intro _
    rfl
  | case2 fuel attempts r e log sql hsql =>
    rw [loopGo.eq_2, if_pos hsql]
    intro _
    rfl
  | case3 fuel attempts r e log sql hsql res hok hval =>
    have hok' : (ex (trimStr gen)).ok = true := hok
    have hval' : validate_shape (ex (trimStr gen)).rows (ex (trimStr gen)).columns hint = true := hval
    rw [loopGo.eq_2, if_neg hsql]
    simp only [hok', hval', if_true, eq_self_iff_true]
    intro h
    simp at h
  | case4 fuel attempts r e log sql hsql res hok hval hatt sql2 sql2e res2 hok2 hval2 =>
    have hok' : (ex (trimStr gen)).ok = true := hok
    have hval' : ¬ validate_shape (ex (trimStr gen)).rows (ex (trimStr gen)).columns hint = true := hval
    have hok2' : (ex (ensure_semi (if (trimStr hint == "int" || trimStr hint == "float") = true then
        wrap_scalar (trimStr gen) hint else simple_repair (trimStr gen)))).ok = true := hok2
    have hval2' : validate_shape
        (ex (ensure_semi (if (trimStr hint == "int" || trimStr hint == "float") = true then
          wrap_scalar (trimStr gen) hint else simple_repair (trimStr gen)))).rows
        (ex (ensure_semi (if (trimStr hint == "int" || trimStr hint == "float") = true then
          wrap_scalar (trimStr gen) hint else simple_repair (trimStr gen)))).columns hint = true := hval2
    rw [loopGo.eq_2, if_neg hsql]
    simp only [hok', hval', hok2', hval2', if_true, eq_self_iff_true, if_false,
      Bool.false_eq_true, hatt, if_pos]
    intro h
    simp at h
  | case5 fuel attempts r e log sql hsql res log1 hok hval hatt rep sql2 sql2e res2 log2 hok2 hval2 ih =>
    have hok' : (ex (trimStr gen)).ok = true := hok
    have hval' : ¬ validate_shape (ex (trimStr gen)).rows (ex (trimStr gen)).columns hint = true := hval
    have hok2' : (ex (ensure_semi (if (trimStr hint == "int" || trimStr hint == "float") = true then
        wrap_scalar (trimStr gen) hint else simple_repair (trimStr gen)))).ok = true := hok2
    have hval2' : ¬ validate_shape
        (ex (ensure_semi (if (trimStr hint == "int" || trimStr hint == "float") = true then
          wrap_scalar (trimStr gen) hint else simple_repair (trimStr gen)))).rows
        (ex (ensure_semi (if (trimStr hint == "int" || trimStr hint == "float") = true then
          wrap_scalar (trimStr gen) hint else simple_repair (trimStr gen)))).columns hint = true := hval2
    rw [loopGo.eq_2, if_neg hsql]
    simp only [hok', hval', hok2', hval2', if_true, eq_self_iff_true, if_false,
      Bool.false_eq_true, hatt, if_pos]
    exact ih
  | case6 fuel attempts r e log sql hsql res log1 hok hval hatt rep sql2 sql2e res2 log2 hok2 ih =>
    have hok' : (ex (trimStr gen)).ok = true := hok
    have hval' : ¬ validate_shape (ex (trimStr gen)).rows (ex (trimStr gen)).columns hint = true := hval
    have hok2' : ¬ (ex (ensure_semi (if (trimStr hint == "int" || trimStr hint == "float") = true then
        wrap_scalar (trimStr gen) hint else simple_repair (trimStr gen)))).ok = true := hok2
    rw [loopGo.eq_2, if_neg hsql]
    simp only [hok', hval', hok2', if_true, eq_self_iff_true, if_false,
      Bool.false_eq_true, hatt, if_pos]
    exact ih
  | case7 fuel attempts r e log sql hsql res hok hval hatt =>
    have hok' : (ex (trimStr gen)).ok = true := hok
    have hval' : ¬ validate_shape (ex (trimStr gen)).rows (ex (trimStr gen)).columns hint = true := hval
    rw [loopGo.eq_2, if_neg hsql]
    simp only [hok', hval', if_true, eq_self_iff_true, if_false, Bool.false_eq_true,
      hatt, if_neg]
    intro _
    trivial
  | case8 fuel attempts r e log sql hsql res log1 hok hatt ih =>
    have hok' : ¬ (ex (trimStr gen)).ok = true := hok
    rw [loopGo.eq_2, if_neg hsql]
    simp only [hok', if_true, eq_self_iff_true, if_false, Bool.false_eq_true, hatt, if_pos]
    exact ih
  | case9 fuel attempts r e log sql hsql res hok hatt =>
    have hok' : ¬ (ex (trimStr gen)).ok = true := hok
    rw [loopGo.eq_2, if_neg hsql]
    simp only [hok', if_true, eq_self_iff_true, if_false, Bool.false_eq_true, hatt, if_neg]
    intro _
    trivial

/-- C2 amended: the repair loop runs at most 3 generate-execute
iterations and counts at most 2 repairs per question, but it can issue
up to 5 query-service executions in total, because a shape failure in
either of the first two iterations executes the repaired query inline
before the loop re-enters; on exhausting the bound (or any other total
failure) it terminates with the last recorded failure carried in a
failed execution result with empty rows and columns; it terminates on
every oracle (the loop is a total function, so it never raises). -/
theorem c2_loop_bounds_amended :
    ∀ (execute : String → ExecResult) (gen hint : String),
      (run_loop execute gen hint).attempts ≤ 3 ∧
      (run_loop execute gen hint).repaired ≤ 2 ∧
      (run_loop execute gen hint).exec_log.length ≤ 5 ∧
      ((run_loop execute gen hint).exec_result.ok = false →
        (run_loop execute gen hint).exec_result =
          ⟨false, [], [], (run_loop execute gen hint).last_err⟩) := by
  intro execute gen hint
  have h := loopGo_bounds execute gen hint 3 1 0 Option.none [] (by omega) (by omega)
  have h2 := loopGo_failure_recorded execute gen hint 3 1 0 Option.none []
  exact ⟨h.1, h.2.1, h.2.2, h2⟩

/-- C2 witness: the failure-recording clause at a concrete run that
exhausts the bound — a service erroring on every call — whose terminal
result is the failed record carrying the last error. -/
theorem c2_loop_bounds_witness :
    (run_loop (fun _ => ⟨false, [], [], some "disk I/O error"⟩)
      "SELECT COUNT(*) FROM t" "int").exec_result =
      ⟨false, [], [],
        (run_loop (fun _ => ⟨false, [], [], some "disk I/O error"⟩)
          "SELECT COUNT(*) FROM t" "int").last_err⟩ :=
  (c2_loop_bounds_amended (fun _ => ⟨false, [], [], some "disk I/O error"⟩)
    "SELECT COUNT(*) FROM t" "int").2.2.2 (by decide)

/-! ## C3 -/

/-- C3: on a persistent query-service execution error the loop logs the
repair (`_simple_repair` plus a trailing terminator) but the next
iteration regenerates the query, so every execution — including the
retries — runs the original query string, never the repaired one,
although the repaired string differs. -/
theorem c3_repair_discarded :
    (run_loop (fun _ => ⟨false, [], [], some "no such table: Order"⟩)
      "SELECT COUNT(*) FROM Order Details" "int").exec_log =
      ["SELECT COUNT(*) FROM Order Details", "SELECT COUNT(*) FROM Order Details",
       "SELECT COUNT(*) FROM Order Details"] ∧
    (run_loop (fun _ => ⟨false, [], [], some "no such table: Order"⟩)
      "SELECT COUNT(*) FROM Order Details" "int").repaired = 2 ∧
    ensure_semi (simple_repair "SELECT COUNT(*) FROM Order Details") =
      "SELECT COUNT(*) FROM \"Order Details\";" ∧
    ("SELECT COUNT(*) FROM Order Details" : String) ≠
      "SELECT COUNT(*) FROM \"Order Details\";" := by
  refine ⟨rfl, rfl, rfl, by decide⟩

/-! ## C6 -/

/-- Shape validation as the claim states it, written from the
specification's words: a scalar (`int`/`float`) hint passes iff at
least one row exists and the first row holds at least one
numeric-convertible cell; a keyed-object hint passes iff at least one
row exists, regardless of columns; a list hint and any other hint
always pass. -/
def spec_validate_shape (rows : List Row) (cols : List String) (format_hint : String) : Prop :=
  let fh := trimStr format_hint
  if fh = "int" ∨ fh = "float" then
    rows ≠ [] ∧ ∃ c ∈ cols, isNumber (rowGet (rows.headD []) c) = true
  else if startsWithStr fh "\x7b" = true then
    rows ≠ []
  else True

/-- C6: `_validate_shape` is exactly the function of the hint the
specification describes, for every input. -/
theorem c6_validate_shape_spec :
    ∀ (rows : List Row) (cols : List String) (hint : String),
      validate_shape rows cols hint = true ↔ spec_validate_shape rows cols hint := by
  intro rows cols hint
  unfold validate_shape spec_validate_shape
  by_cases h1 : trimStr hint = "int"
  · cases rows with
    | nil => simp [h1]
    | cons r0 rest =>
      by_cases hc : cols = []
      · simp [h1, hc]
      · simp [h1, hc, List.any_eq_true]
  · by_cases h2 : trimStr hint = "float"
    · cases rows with
      | nil => simp [h1, h2]
      | cons r0 rest =>
        by_cases hc : cols = []
        · simp [h1, h2, hc]
        · simp [h1, h2, hc, List.any_eq_true]
          constructor
          · rintro ⟨c, hcmem, hnum, _⟩
            exact ⟨c, hcmem, hnum⟩
          · rintro ⟨c, hcmem, hnum⟩
            exact ⟨c, hcmem, hnum, pyFloat_isSome_of_isNumber _ hnum⟩
    · by_cases h3 : startsWithStr (trimStr hint) "\x7b" = true
      · simp [h1, h2, h3]
      · by_cases h4 : startsWithStr (trimStr hint) "list[" = true <;>
          simp [h1, h2, h3, h4]

/-- C6 witness: the scalar clause evaluated at a concrete numeric
row. -/
theorem c6_validate_shape_witness :
    validate_shape [[("x", .int 5)]] ["x"] "int" = true ∧
    spec_validate_shape [[("x", .int 5)]] ["x"] "int" :=
  ⟨rfl, (c6_validate_shape_spec [[("x", .int 5)]] ["x"] "int").mp rfl⟩

/-! ## C7 -/

/-- Python's `sorted(set(_))` output is sorted. -/
lemma pySortedSet_sorted (l : List String) :
    List.Sorted (fun a b => a ≤ b) (pySortedSet l) :=
  List.sorted_insertionSort _ _

/-- Python's `sorted(set(_))` output has no duplicates. -/
lemma pySortedSet_nodup (l : List String) : (pySortedSet l).Nodup :=
  ((List.perm_insertionSort _ l.dedup).nodup_iff).mpr (List.nodup_dedup l)

/-- Membership in `sorted(set(_))` is membership in the input. -/
lemma pySortedSet_mem (l : List String) (x : String) :
    x ∈ pySortedSet l ↔ x ∈ l :=
  ((List.perm_insertionSort _ l.dedup).mem_iff).trans List.mem_dedup

/-- C7 counterexample: on the reference-only route the citations are
the fragment identifiers exactly as retrieved — here ["docB::chunk1",
"docA::chunk0"], which is not sorted ascending — so the claim's
"still sorted and duplicate-free" clause fails. -/
theorem c7_counterexample :
    (agent_answer (fun _ => ⟨false, [], [], Option.none⟩) "What is the return policy?"
      "int" [⟨"docB::chunk1", "text one"⟩, ⟨"docA::chunk0", "text two"⟩]).citations =
      ["docB::chunk1", "docA::chunk0"] ∧
    ¬ List.Sorted (fun a b : String => a ≤ b) ["docB::chunk1", "docA::chunk0"] := by
  refine ⟨rfl, ?_⟩
  intro h
  have hle : ("docB::chunk1" : String) ≤ "docA::chunk0" :=
    (List.sorted_cons.mp h).1 _ (by simp)
  rw [String.le_iff_toList_le] at hle
  revert hle
  decide

/-- C7 amended: on the structured/combined route the citations are
sorted ascending, duplicate-free, and equal (as a set) to the union of
the table names extracted from the executed query and the retrieved
fragment identifiers; on the reference-only route the citations are the
fragment identifiers in retrieval order, not sorted or deduplicated. -/
theorem c7_citations_amended :
    (∀ (execute : String → ExecResult) (gen hint : String) (retrieved : List Chunk),
      List.Sorted (fun a b : String => a ≤ b)
        (structured_answer execute gen hint retrieved).citations ∧
      (structured_answer execute gen hint retrieved).citations.Nodup ∧
      (∀ x, x ∈ (structured_answer execute gen hint retrieved).citations ↔
        x ∈ extract_tables_from_sql (run_loop execute gen hint).sql_executed ∨
        x ∈ doc_chunk_ids retrieved)) ∧
    (∀ (hint : String) (retrieved : List Chunk),
      (rag_answer hint retrieved).citations = doc_chunk_ids retrieved) := by
  constructor
  · intro execute gen hint retrieved
    refine ⟨pySortedSet_sorted _, pySortedSet_nodup _, fun x => ?_⟩
    exact (pySortedSet_mem _ x).trans List.mem_append
  · intro hint retrieved
    rfl

/-! ## C9 -/

/-- C9 counterexample: with no year cue in the question and fragment
text whose date matches are ["2020-01-01", "2020-01-01", "2020-02-02"],
the Planner sets both bounds from the first two matches — start = end =
"2020-01-01" — whereas the claim's "first two distinct dates" would set
the end to "2020-02-02". -/
theorem c9_counterexample :
    dateFindAll "on 2020-01-01 and 2020-01-01 then 2020-02-02".data =
      ["2020-01-01", "2020-01-01", "2020-02-02"] ∧
    (planner_plan "hello" [⟨"c1", "on 2020-01-01 and 2020-01-01 then 2020-02-02"⟩]).date_from =
      some "2020-01-01" ∧
    (planner_plan "hello" [⟨"c1", "on 2020-01-01 and 2020-01-01 then 2020-02-02"⟩]).date_to =
      some "2020-01-01" ∧
    ("2020-01-01" : String) ≠ "2020-02-02" := by
  refine ⟨rfl, rfl, rfl, by decide⟩

/-- C9 amended: the Planner's date window obeys the year-remapping
table — a summer-1997 phrase yields the fixed June 2013 window, a
winter-1997 phrase the fixed December 2017 window, any other mention of
1997 the full 2013 window; when no remapping applies, the window is
taken from literal dates in the fragment text, where the first two
dates found (not necessarily distinct) become start and end and a
single found date is used for both; with no temporal cue and no
fragment dates both bounds stay null; the Planner is a total
function. -/
theorem c9_planner_dates_amended :
    ∀ (question : String) (retrieved : List Chunk),
      ((containsSubstr (lowerStr question) "summer 1997" ||
        containsSubstr (lowerStr question) "summer beverages 1997") = true →
        (planner_plan question retrieved).date_from = some "2013-06-01" ∧
        (planner_plan question retrieved).date_to = some "2013-06-30") ∧
      ((containsSubstr (lowerStr question) "summer 1997" ||
        containsSubstr (lowerStr question) "summer beverages 1997") = false →
       (containsSubstr (lowerStr question) "winter 1997" ||
        containsSubstr (lowerStr question) "winter classics 1997") = true →
        (planner_plan question retrieved).date_from = some "2017-12-01" ∧
        (planner_plan question retrieved).date_to = some "2017-12-31") ∧
      ((containsSubstr (lowerStr question) "summer 1997" ||
        containsSubstr (lowerStr question) "summer beverages 1997") = false →
       (containsSubstr (lowerStr question) "winter 1997" ||
        containsSubstr (lowerStr question) "winter classics 1997") = false →
       containsSubstr (lowerStr question) "1997" = true →
        (planner_plan question retrieved).date_from = some "2013-01-01" ∧
        (planner_plan question retrieved).date_to = some "2013-12-31") ∧
      ((containsSubstr (lowerStr question) "summer 1997" ||
        containsSubstr (lowerStr question) "summer beverages 1997") = false →
       (containsSubstr (lowerStr question) "winter 1997" ||
        containsSubstr (lowerStr question) "winter classics 1997") = false →
       containsSubstr (lowerStr question) "1997" = false →
        (match dateFindAll (joinSep " " (retrieved.map (fun c => c.text))).data with
         | [] => (planner_plan question retrieved).date_from = Option.none ∧
                 (planner_plan question retrieved).date_to = Option.none
         | [d] => (planner_plan question retrieved).date_from = some d ∧
                  (planner_plan question retrieved).date_to = some d
         | d1 :: d2 :: _ => (planner_plan question retrieved).date_from = some d1 ∧
                            (planner_plan question retrieved).date_to = some d2)) := by
  intro question retrieved
  refine ⟨?_, ?_, ?_, ?_⟩
  · intro h
    simp only [planner_plan, h, if_true, ite_true]
    exact ⟨rfl, rfl⟩
  · intro h1 h2
    simp only [planner_plan, h1, h2, if_true, ite_true, Bool.false_eq_true, if_false, ite_false]
    exact ⟨rfl, rfl⟩
  · intro h1 h2 h3
    simp only [planner_plan, h1, h2, h3, if_true, ite_true, Bool.false_eq_true, if_false, ite_false]
    exact ⟨rfl, rfl⟩
  · intro h1 h2 h3
    simp only [planner_plan, h1, h2, h3, Bool.false_eq_true, if_false, ite_false]
    cases hd : dateFindAll (joinSep " " (retrieved.map (fun c => c.text))).data with
    | nil => exact ⟨rfl, rfl⟩
    | cons d rest =>
      cases rest with
      | nil => exact ⟨rfl, rfl⟩
      | cons d2 rest2 => exact ⟨rfl, rfl⟩

/-- C9 witness: the summer-1997 clause at a concrete question. -/
theorem c9_planner_dates_witness :
    (planner_plan "Total revenue during Summer 1997" []).date_from = some "2013-06-01" ∧
    (planner_plan "Total revenue during Summer 1997" []).date_to = some "2013-06-30" :=
  (c9_planner_dates_amended "Total revenue during Summer 1997" []).1 (by decide)

/-! ## C1 -/

/-- The claim's notion of a value matching a declared field type:
`int` fields hold an integer, `float` fields a 2-decimal float, any
other declared type a string. -/
def ansHasType (typ : String) (a : Ans) : Prop :=
  if typ = "int" then ∃ n : ℤ, a = .int n
  else if typ = "float" then ∃ q : ℚ, a = .float q ∧ ∃ m : ℤ, q = (m : ℚ) / 100
  else ∃ s : String, a = .str s

/-- The zero value of a declared type has that type. -/
lemma ansHasType_zeroOf (typ : String) : ansHasType typ (zeroOf typ) := by
  unfold ansHasType zeroOf
  by_cases h1 : typ = "int"
  · simp [h1]
  · by_cases h2 : typ = "float"
    · simp only [h1, h2, beq_iff_eq, if_false, if_true, ite_true, ite_false, reduceCtorEq]
      exact ⟨0, rfl, 0, by norm_num⟩
    · simp [h1, h2]

/-- Every extracted typed value has its declared type. -/
lemma ansHasType_extract_typed (row : Row) (cols : List String) (key typ : String) :
    ansHasType typ (extract_typed_value row cols key typ) := by
  unfold ansHasType extract_typed_value
  by_cases h1 : typ = "int"
  · simp [h1]
  · by_cases h2 : typ = "float"
    · simp only [h1, h2, beq_iff_eq, if_false, if_true, ite_true, ite_false, reduceCtorEq]
      refine ⟨_, rfl, ?_⟩
      cases hv : pyFloat? (if (match cols.find? (fun c => lowerStr c == lowerStr key) with
          | some c => rowGet row c
          | Option.none => PyVal.none) = PyVal.none then rowGet row key
        else (match cols.find? (fun c => lowerStr c == lowerStr key) with
          | some c => rowGet row c
          | Option.none => PyVal.none)) with
      | none => exact ⟨0, by norm_num⟩
      | some q => exact ⟨roundHalfEven (q * 100), rfl⟩
    · simp [h1, h2]

/-- Mapping a per-key extractor over the parsed spec produces fields
pairwise aligned with the declared keys and types. -/
lemma forall2_typed_map (f : String × String → Ans)
    (hf : ∀ kt, ansHasType kt.2 (f kt)) (kts : List (String × String)) :
    List.Forall₂ (fun (fld : String × Ans) (kt : String × String) =>
      fld.1 = kt.1 ∧ ansHasType kt.2 fld.2)
      (kts.map (fun kt => (kt.1, f kt))) kts := by
  induction kts with
  | nil => exact List.Forall₂.nil
  | cons kt rest ih => exact List.Forall₂.cons ⟨rfl, hf kt⟩ ih

/-- The float extractor always yields an exact hundredth. -/
lemma extract_float_hundredth (rows : List Row) (cols : List String) :
    ∃ m : ℤ, extract_float rows cols = (m : ℚ) / 100 := by
  unfold extract_float
  cases rows with
  | nil => exact ⟨0, by norm_num⟩
  | cons first rest =>
    by_cases hc : cols.isEmpty
    · simp only [hc, if_true, ite_true]
      exact ⟨0, by norm_num⟩
    · simp only [hc, if_false, Bool.false_eq_true, ite_false]
      cases hv : firstNumeric first cols with
      | none => exact ⟨0, by norm_num⟩
      | some q => exact ⟨roundHalfEven (q * 100), rfl⟩

/-- C1 counterexample: on the reference-only route a keyed-object hint
is answered with the empty object, not an object carrying the declared
fields with zero values, although the hint declares the fields
`category` and `quantity`. -/
theorem c1_counterexample :
    (agent_answer (fun _ => ⟨false, [], [], Option.none⟩) "What is the return policy?"
      "{category:str, quantity:int}" []).final_answer = Ans.obj [] ∧
    parse_format_spec "category:str, quantity:int" =
      [("category", "str"), ("quantity", "int")] ∧
    Ans.obj [] ≠ Ans.obj [("category", Ans.str ""), ("quantity", Ans.int 0)] := by
  refine ⟨rfl, rfl, ?_⟩
  simp

/-- C1 amended: the synthesizer (structured/combined route) produces a
structurally valid value for every hint class — an integer (default 0)
for `int`, a 2-decimal float (default 0.0) for `float`, an object
carrying exactly the declared fields with declared types (zero values
when no row exists) for a keyed-object hint, and a list of such objects
(empty for no rows) for a `list[{...}]` hint; on the reference-only
route, an `int` hint still yields an integer and a `float` hint a
float, but a keyed-object hint degrades to the empty object without the
declared fields, and a list hint to the empty list. -/
theorem c1_answer_shape_amended :
    (∀ (rows : List Row) (cols : List String) (hint : String)
      (tables ids : List String) (sql : String) (rep : ℕ),
      (trimStr hint = "int" →
        (∃ n : ℤ, (synthesize rows cols hint tables ids sql rep).final_answer = .int n) ∧
        (rows = [] → (synthesize rows cols hint tables ids sql rep).final_answer = .int 0)) ∧
      (trimStr hint = "float" →
        (∃ q : ℚ, (synthesize rows cols hint tables ids sql rep).final_answer = .float q ∧
          ∃ m : ℤ, q = (m : ℚ) / 100) ∧
        (rows = [] → (synthesize rows cols hint tables ids sql rep).final_answer = .float 0)) ∧
      (trimStr hint ≠ "int" → trimStr hint ≠ "float" →
       startsWithStr (trimStr hint) "\x7b" = true →
       (trimStr hint).data.any (fun c => c == ':') = true →
        ∃ fields, (synthesize rows cols hint tables ids sql rep).final_answer = .obj fields ∧
          List.Forall₂ (fun (fld : String × Ans) (kt : String × String) =>
            fld.1 = kt.1 ∧ ansHasType kt.2 fld.2) fields
            (parse_format_spec (trimStr (stripChars (trimStr hint) braceChars))) ∧
          (rows = [] → fields =
            (parse_format_spec (trimStr (stripChars (trimStr hint) braceChars))).map
              (fun kt => (kt.1, zeroOf kt.2)))) ∧
      (trimStr hint ≠ "int" → trimStr hint ≠ "float" →
       startsWithStr (trimStr hint) "\x7b" = false →
       startsWithStr (trimStr hint) "list[" = true →
       startsWithStr (trimStr (dropRightStr (dropStr (trimStr hint) 5) 1)) "\x7b" = true →
        ∃ items, (synthesize rows cols hint tables ids sql rep).final_answer = .list items ∧
          items.length = rows.length ∧
          (∀ a ∈ items, ∃ fields, a = .obj fields ∧
            List.Forall₂ (fun (fld : String × Ans) (kt : String × String) =>
              fld.1 = kt.1 ∧ ansHasType kt.2 fld.2) fields
              (parse_format_spec (trimStr (stripChars
                (trimStr (dropRightStr (dropStr (trimStr hint) 5) 1)) braceChars)))) ∧
          (rows = [] → items = []))) ∧
    (∀ (hint : String) (retrieved : List Chunk),
      (trimStr hint = "int" →
        ∃ n : ℤ, (rag_answer hint retrieved).final_answer = .int n) ∧
      (trimStr hint = "float" →
        ∃ q : ℚ, (rag_answer hint retrieved).final_answer = .float q) ∧
      (trimStr hint ≠ "int" → trimStr hint ≠ "float" →
       startsWithStr (trimStr hint) "\x7b" = true →
        (rag_answer hint retrieved).final_answer = .obj []) ∧
      (trimStr hint ≠ "int" → trimStr hint ≠ "float" →
       startsWithStr (trimStr hint) "\x7b" = false →
       startsWithStr (trimStr hint) "list[" = true →
        (rag_answer hint retrieved).final_answer = .list [])) := by
  constructor
  · intro rows cols hint tables ids sql rep
    refine ⟨?_, ?_, ?_, ?_⟩
    · intro h
      simp only [synthesize, h]
      refine ⟨⟨extract_int rows cols, by simp⟩, ?_⟩
      intro hrows
      subst hrows
      simp [extract_int]
    · intro h
      simp only [synthesize, h]
      obtain ⟨m, hm⟩ := extract_float_hundredth rows cols
      refine ⟨⟨extract_float rows cols, by simp, m, hm⟩, ?_⟩
      intro hrows
      subst hrows
      simp [extract_float]
    · intro h1 h2 h3 h4
      simp only [synthesize, h1, h2, h3, h4]
      simp only [beq_iff_eq, h1, h2, if_false, ite_false, Bool.and_self, if_true, ite_true,
        Bool.false_eq_true, reduceIte]
      unfold extract_object
      cases rows with
      | cons row rest =>
        refine ⟨_, rfl, ?_, by simp⟩
        exact forall2_typed_map _ (fun kt => ansHasType_extract_typed row cols kt.1 kt.2) _
      | nil =>
        refine ⟨_, rfl, ?_, fun _ => rfl⟩
        exact forall2_typed_map _ (fun kt => ansHasType_zeroOf kt.2) _
    · intro h1 h2 h3 h4 h5
      simp only [synthesize, h1, h2, h3, h4]
      simp only [beq_iff_eq, h1, h2, if_false, ite_false, Bool.false_eq_true,
        Bool.false_and, reduceIte]
      unfold extract_list
      simp only [h5, Bool.not_true, if_false, Bool.false_eq_true, ite_false, reduceIte]
      refine ⟨_, rfl, by simp, ?_, by intro hrows; subst hrows; simp⟩
      intro a ha
      obtain ⟨row, _, hrow⟩ := List.mem_map.mp ha
      exact ⟨_, hrow.symm,
        forall2_typed_map _ (fun kt => ansHasType_extract_typed row cols kt.1 kt.2) _⟩
  · intro hint retrieved
    refine ⟨?_, ?_, ?_, ?_⟩
    · intro h
      simp only [rag_answer, rag_final_answer, h]
      cases bev_search (combined_text retrieved) with
      | some n => exact ⟨n, by simp⟩
      | none =>
        cases days_search (combined_text retrieved) with
        | some n => exact ⟨n, by simp⟩
        | none => exact ⟨14, by simp⟩
    · intro h
      simp only [rag_answer, rag_final_answer, h]
      cases num_search (combined_text retrieved).data with
      | some q => exact ⟨q, by simp⟩
      | none => exact ⟨0, by simp⟩
    · intro h1 h2 h3
      simp only [rag_answer, rag_final_answer, h1, h2, h3]
      simp [h1, h2, h3]
    · intro h1 h2 h3 h4
      simp only [rag_answer, rag_final_answer, h1, h2, h3, h4]
      simp [h1, h2, h3, h4]

/-- C1 witness: the amended object clause at the concrete hint
`{category:str, quantity:int}` with no rows, and the amended rag
clauses at the same hint. -/
theorem c1_answer_shape_witness :
    ∃ fields, (synthesize [] [] "{category:str, quantity:int}" [] [] "" 0).final_answer =
        .obj fields ∧
      List.Forall₂ (fun (fld : String × Ans) (kt : String × String) =>
        fld.1 = kt.1 ∧ ansHasType kt.2 fld.2) fields
        (parse_format_spec (trimStr (stripChars
          (trimStr "{category:str, quantity:int}") braceChars))) ∧
      ([] = ([] : List Row) → fields =
        (parse_format_spec (trimStr (stripChars
          (trimStr "{category:str, quantity:int}") braceChars))).map
          (fun kt => (kt.1, zeroOf kt.2))) :=
  ((c1_answer_shape_amended.1 [] [] "{category:str, quantity:int}" [] [] "" 0).2.2.1
    (by decide) (by decide) (by decide) (by decide))

/-! ## C10 -/

/-- A successful literal match leaves a suffix of the input. -/
lemma litMatch_suffix : ∀ (p cs cs' : List Char), litMatch p cs = some cs' → cs' <:+ cs := by
  intro p
  induction p with
  | nil =>
    intro cs cs' h
    simp only [litMatch, Option.some_inj] at h
    exact h ▸ List.suffix_refl cs
  | cons a ps ih =>
    intro cs cs' h
    cases cs with
    | nil => simp [litMatch] at h
    | cons c cs0 =>
      simp only [litMatch] at h
      by_cases hc : (a.toLower == c.toLower) = true
      · rw [if_pos hc] at h
        exact (ih cs0 cs' h).trans (List.suffix_cons c cs0)
      · rw [if_neg hc] at h
        cases h

/-- Whatever a lazy-any expansion matched, the continuation succeeded
on some suffix. -/
lemma firstSome_suffix (k : List Char → Option (List Char)) :
    ∀ (cs g : List Char), firstSome k cs = some g →
      ∃ cs', cs' <:+ cs ∧ k cs' = some g := by
  intro cs
  induction cs with
  | nil =>
    intro g h
    exact ⟨[], List.suffix_refl _, h⟩
  | cons c tail ih =>
    intro g h
    simp only [firstSome] at h
    cases hk : k (c :: tail) with
    | some g' =>
      rw [hk] at h
      exact ⟨c :: tail, List.suffix_refl _, hk.trans h⟩
    | none =>
      rw [hk] at h
      obtain ⟨cs', hs, hkc⟩ := ih g h
      exact ⟨cs', hs.trans (List.suffix_cons c tail), hkc⟩

/-- Whatever a greedy-whitespace expansion matched, the continuation
succeeded on some suffix. -/
lemma wsGreedy_suffix (k : List Char → Option (List Char)) :
    ∀ (cs g : List Char), wsGreedy k cs = some g →
      ∃ cs', cs' <:+ cs ∧ k cs' = some g := by
  intro cs
  induction cs with
  | nil =>
    intro g h
    exact ⟨[], List.suffix_refl _, h⟩
  | cons c tail ih =>
    intro g h
    simp only [wsGreedy] at h
    by_cases hw : c.isWhitespace = true
    · rw [if_pos hw] at h
      cases hg : wsGreedy k tail with
      | some g' =>
        rw [hg] at h
        obtain ⟨cs', hs, hkc⟩ := ih g' hg
        cases h
        exact ⟨cs', hs.trans (List.suffix_cons c tail), hkc⟩
      | none =>
        rw [hg] at h
        exact ⟨c :: tail, List.suffix_refl _, h⟩
    · rw [if_neg hw] at h
      exact ⟨c :: tail, List.suffix_refl _, h⟩

/-- A successful `\\d\x7b1,3\x7d` item implies the rest of the pattern
matched after 1-3 dropped characters. -/
lemma digits13_decompose (rest : List RItem) (cs g : List Char)
    (h : matchSeq (.digits13 :: rest) cs = some g) :
    ∃ k g', matchSeq rest (cs.drop k) = some g' := by
  simp only [matchSeq] at h
  by_cases h3 : ((cs.take 3).length == 3 && (cs.take 3).all (fun c => c.isDigit)) = true
  · rw [if_pos h3] at h
    cases hm : matchSeq rest (cs.drop 3) with
    | some g' => exact ⟨3, g', hm⟩
    | none =>
      rw [hm] at h
      by_cases h2 : ((cs.take 2).length == 2 && (cs.take 2).all (fun c => c.isDigit)) = true
      · rw [if_pos h2] at h
        cases hm2 : matchSeq rest (cs.drop 2) with
        | some g' => exact ⟨2, g', hm2⟩
        | none =>
          rw [hm2] at h
          by_cases h1 : ((cs.take 1).length == 1 && (cs.take 1).all (fun c => c.isDigit)) = true
          · rw [if_pos h1] at h
            cases hm1 : matchSeq rest (cs.drop 1) with
            | some g' => exact ⟨1, g', hm1⟩
            | none => rw [hm1] at h; cases h
          · rw [if_neg h1] at h; cases h
      · rw [if_neg h2] at h
        by_cases h1 : ((cs.take 1).length == 1 && (cs.take 1).all (fun c => c.isDigit)) = true
        · rw [if_pos h1] at h
          cases hm1 : matchSeq rest (cs.drop 1) with
          | some g' => exact ⟨1, g', hm1⟩
          | none => rw [hm1] at h; cases h
        · rw [if_neg h1] at h; cases h
  · rw [if_neg h3] at h
    by_cases h2 : ((cs.take 2).length == 2 && (cs.take 2).all (fun c => c.isDigit)) = true
    · rw [if_pos h2] at h
      cases hm2 : matchSeq rest (cs.drop 2) with
      | some g' => exact ⟨2, g', hm2⟩
      | none =>
        rw [hm2] at h
        by_cases h1 : ((cs.take 1).length == 1 && (cs.take 1).all (fun c => c.isDigit)) = true
        · rw [if_pos h1] at h
          cases hm1 : matchSeq rest (cs.drop 1) with
          | some g' => exact ⟨1, g', hm1⟩
          | none => rw [hm1] at h; cases h
        · rw [if_neg h1] at h; cases h
    · rw [if_neg h2] at h
      by_cases h1 : ((cs.take 1).length == 1 && (cs.take 1).all (fun c => c.isDigit)) = true
      · rw [if_pos h1] at h
        cases hm1 : matchSeq rest (cs.drop 1) with
        | some g' => exact ⟨1, g', hm1⟩
        | none => rw [hm1] at h; cases h
      · rw [if_neg h1] at h; cases h

/-- A match of a concatenated pattern contains a match of its tail
pattern at some suffix of the input. -/
lemma matchSeq_append_suffix :
    ∀ (pre post : List RItem) (cs g : List Char),
      matchSeq (pre ++ post) cs = some g →
      ∃ cs' g', cs' <:+ cs ∧ matchSeq post cs' = some g' := by
  intro pre
  induction pre with
  | nil =>
    intro post cs g h
    exact ⟨cs, g, List.suffix_refl _, h⟩
  | cons it pre ih =>
    intro post cs g h
    cases it with
    | lit s =>
      simp only [List.cons_append, matchSeq] at h
      cases hl : litMatch s.data cs with
      | none => rw [hl] at h; cases h
      | some cs1 =>
        rw [hl] at h
        obtain ⟨cs', g', hs, hm⟩ := ih post cs1 g h
        exact ⟨cs', g', hs.trans (litMatch_suffix _ _ _ hl), hm⟩
    | lazyAny =>
      simp only [List.cons_append, matchSeq] at h
      obtain ⟨cs1, hs1, hm1⟩ := firstSome_suffix _ cs g h
      obtain ⟨cs', g', hs, hm⟩ := ih post cs1 g hm1
      exact ⟨cs', g', hs.trans hs1, hm⟩
    | optColon =>
      simp only [List.cons_append, matchSeq] at h
      cases cs with
      | nil =>
        obtain ⟨cs', g', hs, hm⟩ := ih post [] g h
        exact ⟨cs', g', hs, hm⟩
      | cons c cs0 =>
        dsimp only at h
        simp only [List.append_eq] at h
        by_cases hc : (c == ':') = true
        · rw [if_pos hc] at h
          cases hm0 : matchSeq (pre ++ post) cs0 with
          | some g0 =>
            rw [hm0] at h
            obtain ⟨cs', g', hs, hm⟩ := ih post cs0 g0 hm0
            exact ⟨cs', g', hs.trans (List.suffix_cons c cs0), hm⟩
          | none =>
            rw [hm0] at h
            obtain ⟨cs', g', hs, hm⟩ := ih post (c :: cs0) g h
            exact ⟨cs', g', hs, hm⟩
        · rw [if_neg hc] at h
          obtain ⟨cs', g', hs, hm⟩ := ih post (c :: cs0) g h
          exact ⟨cs', g', hs, hm⟩
    | wsStar =>
      simp only [List.cons_append, matchSeq] at h
      obtain ⟨cs1, hs1, hm1⟩ := wsGreedy_suffix _ cs g h
      obtain ⟨cs', g', hs, hm⟩ := ih post cs1 g hm1
      exact ⟨cs', g', hs.trans hs1, hm⟩
    | digits13 =>
      rw [List.cons_append] at h
      obtain ⟨k, g1, hm1⟩ := digits13_decompose _ _ _ h
      obtain ⟨cs', g', hs, hm⟩ := ih post (cs.drop k) g1 hm1
      exact ⟨cs', g', hs.trans (List.drop_suffix k cs), hm⟩

/-- A pattern matching at any suffix makes the leftmost search
succeed. -/
lemma reSearch_some_of_match (items : List RItem) :
    ∀ (cs cs' : List Char), cs' <:+ cs → (matchSeq items cs').isSome →
      (reSearch items cs).isSome := by
  intro cs
  induction cs with
  | nil =>
    intro cs' hs hm
    have : cs' = [] := List.eq_nil_of_suffix_nil hs
    subst this
    simpa [reSearch] using hm
  | cons c tail ih =>
    intro cs' hs hm
    rcases List.suffix_cons_iff.mp hs with heq | hsfx
    · subst heq
      simp only [reSearch]
      cases hm0 : matchSeq items (c :: tail) with
      | some g => simp
      | none => rw [hm0] at hm; simp at hm
    · simp only [reSearch]
      cases hm0 : matchSeq items (c :: tail) with
      | some g => simp
      | none => exact ih cs' hsfx hm

/-- A successful leftmost search is a match at some suffix. -/
lemma reSearch_decompose (items : List RItem) :
    ∀ (cs g : List Char), reSearch items cs = some g →
      ∃ cs', cs' <:+ cs ∧ matchSeq items cs' = some g := by
  intro cs
  induction cs with
  | nil =>
    intro g h
    exact ⟨[], List.suffix_refl _, h⟩
  | cons c tail ih =>
    intro g h
    simp only [reSearch] at h
    cases hm0 : matchSeq items (c :: tail) with
    | some g0 =>
      rw [hm0] at h
      cases h
      exact ⟨c :: tail, List.suffix_refl _, hm0⟩
    | none =>
      rw [hm0] at h
      obtain ⟨cs', hs, hm⟩ := ih g h
      exact ⟨cs', hs.trans (List.suffix_cons c tail), hm⟩

/-- The Beverages-unopened pattern ends in the plain day-count pattern,
so whenever it matches, the plain pattern matches somewhere too. -/
lemma days_of_bev (s : String) : (bev_search s).isSome → (days_search s).isSome := by
  intro h
  have h' : (reSearch patBev s.data).isSome := by
    simpa [bev_search] using h
  obtain ⟨g, hg⟩ := Option.isSome_iff_exists.mp h'
  obtain ⟨cs0, hs0, hm0⟩ := reSearch_decompose patBev s.data g hg
  have hsplit : matchSeq ([RItem.lit "Beverages", RItem.lazyAny, RItem.lit "unopened",
      RItem.lazyAny, RItem.optColon, RItem.wsStar] ++ patDays) cs0 = some g := hm0
  obtain ⟨cs', g', hs', hm'⟩ := matchSeq_append_suffix _ _ _ _ hsplit
  have hsome := reSearch_some_of_match patDays s.data cs' (hs'.trans hs0) (by simp [hm'])
  simpa [days_search] using hsome

/-- C10: on the reference-only route with an `int` output-type hint, if
the concatenated fragment text contains no day-count pattern the
pipeline returns the hardcoded constant 14 (not the zero default used
elsewhere); when the pattern is present, the first matched day count is
returned, preferring the Beverages-unopened context. -/
theorem c10_rag_days_extraction :
    ∀ (hint : String) (retrieved : List Chunk),
      trimStr hint = "int" →
      ((days_search (combined_text retrieved) = Option.none →
        (rag_answer hint retrieved).final_answer = Ans.int 14) ∧
       (∀ n : ℕ, days_search (combined_text retrieved) = some n →
        (rag_answer hint retrieved).final_answer =
          Ans.int (((bev_search (combined_text retrieved)).getD n : ℕ) : ℤ))) := by
  intro hint retrieved h
  have hfa : (rag_answer hint retrieved).final_answer =
      rag_final_answer hint (combined_text retrieved) := rfl
  constructor
  · intro hd
    have hb : bev_search (combined_text retrieved) = Option.none := by
      cases hbev : bev_search (combined_text retrieved) with
      | none => rfl
      | some k =>
        exfalso
        have hs := days_of_bev (combined_text retrieved) (by simp [hbev])
        rw [hd] at hs
        simp at hs
    rw [hfa]
    simp only [rag_final_answer, h]
    simp [hb, hd]
  · intro n hd
    rw [hfa]
    cases hbev : bev_search (combined_text retrieved) with
    | some k =>
      simp only [rag_final_answer, h]
      simp [hbev]
    | none =>
      simp only [rag_final_answer, h]
      simp [hbev, hd]

/-- C10 witness: fragment text with no day-count pattern yields 14. -/
theorem c10_rag_days_witness :
    (rag_answer "int" [⟨"policy::chunk0", "general returns accepted"⟩]).final_answer =
      Ans.int 14 :=
  (c10_rag_days_extraction "int" [⟨"policy::chunk0", "general returns accepted"⟩] rfl).1
    (by decide)

end RetailCopilot
